import Mathlib

/-!
Verification development for the dotprompt tree-sitter grammar
(packages/treesitter/src/parser.c).

The file embeds, verbatim from the generated C tables:
  - the lexer DFA ts_lex (functions lexDelta, eofDelta, acceptSym,
    one case per C lexer state; ACCEPT_TOKEN is modelled by acceptSym,
    ADVANCE by LStep.adv, SKIP by LStep.skp, the eof branches by eofDelta);
  - the lex-mode table ts_lex_modes (function ts_lex_modes);
  - the LR action table (ts_parse_table row 1 together with
    ts_small_parse_table and ts_parse_actions, flattened into tblActions)
    and the goto entries (tblGoto).

Symbols are the numeric codes of enum ts_symbol_identifiers: 0 end,
1 header_comment, 2 frontmatter newline, 3 frontmatter_delimiter,
4 yaml content run, 5 yaml key, 6 colon, 7 yaml value, 8 open-brace pair
with hash, 9 close-brace pair, 10 open-brace pair with slash,
11 open-brace pair, 12 greater-than, 13 else keyword, 14 open-brace pair
with bang, 15 simple comment body, 16 open-brace pair with bang dash dash,
17 dash comment body, 18 dash dash close-brace pair, 19 equals,
20 at-identifier, 21 path, 22 double quote, 23 double-quoted body,
24 single quote, 25 single-quoted body, 26 number, 27 true, 28 false,
29 marker opener, 30 marker content, 31 triple greater-than, 32 text;
nonterminals 33 document, 34 license_header, 35 frontmatter,
36 yaml content node, 37 yaml_line, 38 template_body, 39 content,
40 handlebars_block, 41 block_expression, 42 close_block,
43 handlebars_expression, 44 expression_content, 45 handlebars_comment,
46 argument, 47 hash_param, 48 variable_reference, 49 string_literal,
50 boolean, 51 dotprompt_marker, 52 to 55 repetition wrappers.

The shift/reduce engine itself (the tree-sitter runtime) is not part of
this repository; parseLoop below is modelled from the specification
(sections 4.1, 4.2 and 7): the builder asks the tokenizer for the next
token in the lex mode of its current state, shifts or reduces according to
the embedded tables, and recovers from a token that cannot advance any
rule by turning it into an error leaf and continuing, so that a tree is
always returned.  Input is the list of code points of the source text.
-/

namespace DP

/-- One lexer transition: ADVANCE consumes the lookahead into the current
token, SKIP consumes it and moves the token start past it. -/
inductive LStep where
  | adv (s : Nat)
  | skp (s : Nat)
deriving Repr, DecidableEq

/-- Transition function of the ts_lex DFA, one case per C lexer state, the
conditions in source order. -/
def lexDelta (st c : Nat) : Option LStep :=
  match st with
  | 0 => if c = 34 then some (LStep.adv 78) else if c = 35 then some (LStep.adv 41) else if c = 39 then some (LStep.adv 81) else if c = 45 then some (LStep.adv 6) else if c = 58 then some (LStep.adv 47) else if c = 60 then some (LStep.adv 13) else if c = 61 then some (LStep.adv 65) else if c = 62 then some (LStep.adv 56) else if c = 64 then some (LStep.adv 33) else if c = 101 then some (LStep.adv 71) else if c = 102 then some (LStep.adv 67) else if c = 116 then some (LStep.adv 73) else if c = 123 then some (LStep.adv 26) else if c = 125 then some (LStep.adv 27) else if (9 ≤ c ∧ c ≤ 13) ∨ c = 32 then some (LStep.skp 0) else if (48 ≤ c ∧ c ≤ 57) then some (LStep.adv 84) else if (65 ≤ c ∧ c ≤ 90) ∨ c = 95 ∨ (97 ≤ c ∧ c ≤ 122) then some (LStep.adv 77) else none
  | 1 => if c = 10 then some (LStep.adv 42) else if c = 13 then some (LStep.adv 48) else if (9 ≤ c ∧ c ≤ 12) ∨ c = 32 then some (LStep.adv 48) else if c ≠ 0 then some (LStep.adv 49) else none
  | 2 => if c = 10 then some (LStep.adv 43) else if c = 13 then some (LStep.adv 2) else if (9 ≤ c ∧ c ≤ 12) ∨ c = 32 then some (LStep.skp 2) else none
  | 3 => if c = 34 then some (LStep.adv 78) else if c = 39 then some (LStep.adv 81) else if c = 45 then some (LStep.adv 31) else if c = 61 then some (LStep.adv 65) else if c = 62 then some (LStep.adv 14) else if c = 64 then some (LStep.adv 33) else if c = 102 then some (LStep.adv 67) else if c = 116 then some (LStep.adv 73) else if c = 125 then some (LStep.adv 27) else if (9 ≤ c ∧ c ≤ 13) ∨ c = 32 then some (LStep.skp 3) else if (48 ≤ c ∧ c ≤ 57) then some (LStep.adv 84) else if (65 ≤ c ∧ c ≤ 90) ∨ c = 95 ∨ (97 ≤ c ∧ c ≤ 122) then some (LStep.adv 77) else none
  | 4 => if c = 35 then some (LStep.adv 41) else if c = 45 then some (LStep.adv 10) else if (9 ≤ c ∧ c ≤ 13) ∨ c = 32 then some (LStep.adv 45) else if (65 ≤ c ∧ c ≤ 90) ∨ c = 95 ∨ (97 ≤ c ∧ c ≤ 122) then some (LStep.adv 46) else none
  | 5 => if c = 35 then some (LStep.adv 92) else if c = 60 then some (LStep.adv 99) else if c = 123 then some (LStep.adv 100) else if (9 ≤ c ∧ c ≤ 13) ∨ c = 32 then some (LStep.adv 96) else if c ≠ 0 then some (LStep.adv 102) else none
  | 6 => if c = 45 then some (LStep.adv 8) else if (48 ≤ c ∧ c ≤ 57) then some (LStep.adv 84) else none
  | 7 => if c = 45 then some (LStep.adv 44) else none
  | 8 => if c = 45 then some (LStep.adv 44) else if c = 125 then some (LStep.adv 28) else none
  | 9 => if c = 45 then some (LStep.adv 61) else none
  | 10 => if c = 45 then some (LStep.adv 7) else none
  | 11 => if c = 58 then some (LStep.adv 88) else none
  | 12 => if c = 60 then some (LStep.adv 17) else none
  | 13 => if c = 60 then some (LStep.adv 12) else none
  | 14 => if c = 62 then some (LStep.adv 15) else none
  | 15 => if c = 62 then some (LStep.adv 91) else none
  | 16 => if c = 62 then some (LStep.adv 55) else if c = 64 then some (LStep.adv 33) else if c = 101 then some (LStep.adv 71) else if (9 ≤ c ∧ c ≤ 13) ∨ c = 32 then some (LStep.skp 16) else if (65 ≤ c ∧ c ≤ 90) ∨ c = 95 ∨ (97 ≤ c ∧ c ≤ 122) then some (LStep.adv 77) else none
  | 17 => if c = 100 then some (LStep.adv 19) else none
  | 18 => if c = 109 then some (LStep.adv 22) else none
  | 19 => if c = 111 then some (LStep.adv 24) else none
  | 20 => if c = 111 then some (LStep.adv 18) else none
  | 21 => if c = 112 then some (LStep.adv 23) else none
  | 22 => if c = 112 then some (LStep.adv 25) else none
  | 23 => if c = 114 then some (LStep.adv 20) else none
  | 24 => if c = 116 then some (LStep.adv 21) else none
  | 25 => if c = 116 then some (LStep.adv 11) else none
  | 26 => if c = 123 then some (LStep.adv 54) else none
  | 27 => if c = 125 then some (LStep.adv 51) else none
  | 28 => if c = 125 then some (LStep.adv 64) else none
  | 29 => if (9 ≤ c ∧ c ≤ 13) ∨ c = 32 then some (LStep.skp 29) else if (65 ≤ c ∧ c ≤ 90) ∨ c = 95 ∨ (97 ≤ c ∧ c ≤ 122) then some (LStep.adv 77) else none
  | 30 => if (9 ≤ c ∧ c ≤ 13) ∨ c = 32 then some (LStep.adv 89) else if c ≠ 0 ∧ c ≠ 62 then some (LStep.adv 90) else none
  | 31 => if (48 ≤ c ∧ c ≤ 57) then some (LStep.adv 84) else none
  | 32 => if (48 ≤ c ∧ c ≤ 57) then some (LStep.adv 85) else none
  | 33 => if (65 ≤ c ∧ c ≤ 90) ∨ c = 95 ∨ (97 ≤ c ∧ c ≤ 122) then some (LStep.adv 66) else none
  | 34 => if c ≠ 0 ∧ c ≠ 10 then some (LStep.adv 83) else none
  | 35 => if c ≠ 0 ∧ c ≠ 10 then some (LStep.adv 80) else none
  | 36 => if c ≠ 0 ∧ c ≠ 125 then some (LStep.adv 60) else none
  | 37 => if c = 35 then some (LStep.adv 41) else if c = 45 then some (LStep.adv 98) else if c = 60 then some (LStep.adv 99) else if c = 123 then some (LStep.adv 101) else if (9 ≤ c ∧ c ≤ 13) ∨ c = 32 then some (LStep.adv 93) else if c ≠ 0 then some (LStep.adv 102) else none
  | 38 => if c = 35 then some (LStep.adv 92) else if c = 45 then some (LStep.adv 98) else if c = 60 then some (LStep.adv 99) else if c = 123 then some (LStep.adv 101) else if (9 ≤ c ∧ c ≤ 13) ∨ c = 32 then some (LStep.adv 94) else if c ≠ 0 then some (LStep.adv 102) else none
  | 39 => if c = 35 then some (LStep.adv 92) else if c = 60 then some (LStep.adv 99) else if c = 123 then some (LStep.adv 101) else if (9 ≤ c ∧ c ≤ 13) ∨ c = 32 then some (LStep.adv 95) else if c ≠ 0 then some (LStep.adv 102) else none
  | 40 => none
  | 41 => if c ≠ 0 ∧ c ≠ 10 then some (LStep.adv 41) else none
  | 42 => if c = 10 then some (LStep.adv 42) else if c = 13 then some (LStep.adv 48) else if (9 ≤ c ∧ c ≤ 12) ∨ c = 32 then some (LStep.adv 48) else none
  | 43 => if c = 10 then some (LStep.adv 43) else if c = 13 then some (LStep.adv 2) else none
  | 44 => none
  | 45 => if c = 45 then some (LStep.adv 10) else if (9 ≤ c ∧ c ≤ 13) ∨ c = 32 then some (LStep.adv 45) else none
  | 46 => if c = 45 ∨ (48 ≤ c ∧ c ≤ 57) ∨ (65 ≤ c ∧ c ≤ 90) ∨ c = 95 ∨ (97 ≤ c ∧ c ≤ 122) then some (LStep.adv 46) else none
  | 47 => none
  | 48 => if c = 10 then some (LStep.adv 42) else if c = 13 then some (LStep.adv 48) else if (9 ≤ c ∧ c ≤ 12) ∨ c = 32 then some (LStep.adv 48) else if c ≠ 0 then some (LStep.adv 49) else none
  | 49 => if c ≠ 0 ∧ c ≠ 10 then some (LStep.adv 49) else none
  | 50 => none
  | 51 => none
  | 52 => none
  | 53 => if c = 33 then some (LStep.adv 58) else if c = 35 then some (LStep.adv 50) else none
  | 54 => if c = 33 then some (LStep.adv 58) else if c = 35 then some (LStep.adv 50) else if c = 47 then some (LStep.adv 52) else none
  | 55 => none
  | 56 => if c = 62 then some (LStep.adv 15) else none
  | 57 => if c = 46 ∨ (48 ≤ c ∧ c ≤ 57) ∨ (65 ≤ c ∧ c ≤ 90) ∨ c = 95 ∨ (97 ≤ c ∧ c ≤ 122) then some (LStep.adv 77) else none
  | 58 => if c = 45 then some (LStep.adv 9) else none
  | 59 => if c = 125 then some (LStep.adv 36) else if (9 ≤ c ∧ c ≤ 13) ∨ c = 32 then some (LStep.adv 59) else if c ≠ 0 then some (LStep.adv 60) else none
  | 60 => if c = 125 then some (LStep.adv 36) else if c ≠ 0 then some (LStep.adv 60) else none
  | 61 => none
  | 62 => if c = 45 then some (LStep.adv 63) else if (9 ≤ c ∧ c ≤ 13) ∨ c = 32 then some (LStep.adv 62) else if c ≠ 0 then some (LStep.adv 63) else none
  | 63 => if c = 45 then some (LStep.adv 63) else if c ≠ 0 then some (LStep.adv 63) else none
  | 64 => none
  | 65 => none
  | 66 => if (48 ≤ c ∧ c ≤ 57) ∨ (65 ≤ c ∧ c ≤ 90) ∨ c = 95 ∨ (97 ≤ c ∧ c ≤ 122) then some (LStep.adv 66) else none
  | 67 => if c = 97 then some (LStep.adv 72) else if c = 46 ∨ (48 ≤ c ∧ c ≤ 57) ∨ (65 ≤ c ∧ c ≤ 90) ∨ c = 95 ∨ (98 ≤ c ∧ c ≤ 122) then some (LStep.adv 77) else none
  | 68 => if c = 101 then some (LStep.adv 57) else if c = 46 ∨ (48 ≤ c ∧ c ≤ 57) ∨ (65 ≤ c ∧ c ≤ 90) ∨ c = 95 ∨ (97 ≤ c ∧ c ≤ 122) then some (LStep.adv 77) else none
  | 69 => if c = 101 then some (LStep.adv 86) else if c = 46 ∨ (48 ≤ c ∧ c ≤ 57) ∨ (65 ≤ c ∧ c ≤ 90) ∨ c = 95 ∨ (97 ≤ c ∧ c ≤ 122) then some (LStep.adv 77) else none
  | 70 => if c = 101 then some (LStep.adv 87) else if c = 46 ∨ (48 ≤ c ∧ c ≤ 57) ∨ (65 ≤ c ∧ c ≤ 90) ∨ c = 95 ∨ (97 ≤ c ∧ c ≤ 122) then some (LStep.adv 77) else none
  | 71 => if c = 108 then some (LStep.adv 74) else if c = 46 ∨ (48 ≤ c ∧ c ≤ 57) ∨ (65 ≤ c ∧ c ≤ 90) ∨ c = 95 ∨ (97 ≤ c ∧ c ≤ 122) then some (LStep.adv 77) else none
  | 72 => if c = 108 then some (LStep.adv 75) else if c = 46 ∨ (48 ≤ c ∧ c ≤ 57) ∨ (65 ≤ c ∧ c ≤ 90) ∨ c = 95 ∨ (97 ≤ c ∧ c ≤ 122) then some (LStep.adv 77) else none
  | 73 => if c = 114 then some (LStep.adv 76) else if c = 46 ∨ (48 ≤ c ∧ c ≤ 57) ∨ (65 ≤ c ∧ c ≤ 90) ∨ c = 95 ∨ (97 ≤ c ∧ c ≤ 122) then some (LStep.adv 77) else none
  | 74 => if c = 115 then some (LStep.adv 68) else if c = 46 ∨ (48 ≤ c ∧ c ≤ 57) ∨ (65 ≤ c ∧ c ≤ 90) ∨ c = 95 ∨ (97 ≤ c ∧ c ≤ 122) then some (LStep.adv 77) else none
  | 75 => if c = 115 then some (LStep.adv 70) else if c = 46 ∨ (48 ≤ c ∧ c ≤ 57) ∨ (65 ≤ c ∧ c ≤ 90) ∨ c = 95 ∨ (97 ≤ c ∧ c ≤ 122) then some (LStep.adv 77) else none
  | 76 => if c = 117 then some (LStep.adv 69) else if c = 46 ∨ (48 ≤ c ∧ c ≤ 57) ∨ (65 ≤ c ∧ c ≤ 90) ∨ c = 95 ∨ (97 ≤ c ∧ c ≤ 122) then some (LStep.adv 77) else none
  | 77 => if c = 46 ∨ (48 ≤ c ∧ c ≤ 57) ∨ (65 ≤ c ∧ c ≤ 90) ∨ c = 95 ∨ (97 ≤ c ∧ c ≤ 122) then some (LStep.adv 77) else none
  | 78 => none
  | 79 => if c = 92 then some (LStep.adv 35) else if (9 ≤ c ∧ c ≤ 13) ∨ c = 32 then some (LStep.adv 79) else if c ≠ 0 ∧ c ≠ 34 then some (LStep.adv 80) else none
  | 80 => if c = 92 then some (LStep.adv 35) else if c ≠ 0 ∧ c ≠ 34 then some (LStep.adv 80) else none
  | 81 => none
  | 82 => if c = 92 then some (LStep.adv 34) else if (9 ≤ c ∧ c ≤ 13) ∨ c = 32 then some (LStep.adv 82) else if c ≠ 0 ∧ c ≠ 39 then some (LStep.adv 83) else none
  | 83 => if c = 92 then some (LStep.adv 34) else if c ≠ 0 ∧ c ≠ 39 then some (LStep.adv 83) else none
  | 84 => if c = 46 then some (LStep.adv 32) else if (48 ≤ c ∧ c ≤ 57) then some (LStep.adv 84) else none
  | 85 => if (48 ≤ c ∧ c ≤ 57) then some (LStep.adv 85) else none
  | 86 => if c = 46 ∨ (48 ≤ c ∧ c ≤ 57) ∨ (65 ≤ c ∧ c ≤ 90) ∨ c = 95 ∨ (97 ≤ c ∧ c ≤ 122) then some (LStep.adv 77) else none
  | 87 => if c = 46 ∨ (48 ≤ c ∧ c ≤ 57) ∨ (65 ≤ c ∧ c ≤ 90) ∨ c = 95 ∨ (97 ≤ c ∧ c ≤ 122) then some (LStep.adv 77) else none
  | 88 => none
  | 89 => if (9 ≤ c ∧ c ≤ 13) ∨ c = 32 then some (LStep.adv 89) else if c ≠ 0 ∧ c ≠ 62 then some (LStep.adv 90) else none
  | 90 => if c ≠ 0 ∧ c ≠ 62 then some (LStep.adv 90) else none
  | 91 => none
  | 92 => none
  | 93 => if c = 35 then some (LStep.adv 41) else if c = 45 then some (LStep.adv 98) else if c = 60 then some (LStep.adv 99) else if c = 123 then some (LStep.adv 101) else if (9 ≤ c ∧ c ≤ 13) ∨ c = 32 then some (LStep.adv 93) else if c ≠ 0 then some (LStep.adv 102) else none
  | 94 => if c = 35 then some (LStep.adv 92) else if c = 45 then some (LStep.adv 98) else if c = 60 then some (LStep.adv 99) else if c = 123 then some (LStep.adv 101) else if (9 ≤ c ∧ c ≤ 13) ∨ c = 32 then some (LStep.adv 94) else if c ≠ 0 then some (LStep.adv 102) else none
  | 95 => if c = 35 then some (LStep.adv 92) else if c = 60 then some (LStep.adv 99) else if c = 123 then some (LStep.adv 101) else if (9 ≤ c ∧ c ≤ 13) ∨ c = 32 then some (LStep.adv 95) else if c ≠ 0 then some (LStep.adv 102) else none
  | 96 => if c = 35 then some (LStep.adv 92) else if c = 60 then some (LStep.adv 99) else if c = 123 then some (LStep.adv 100) else if (9 ≤ c ∧ c ≤ 13) ∨ c = 32 then some (LStep.adv 96) else if c ≠ 0 then some (LStep.adv 102) else none
  | 97 => if c = 45 then some (LStep.adv 44) else if c ≠ 0 ∧ c ≠ 35 ∧ c ≠ 60 ∧ c ≠ 123 then some (LStep.adv 102) else none
  | 98 => if c = 45 then some (LStep.adv 97) else if c ≠ 0 ∧ c ≠ 35 ∧ c ≠ 60 ∧ c ≠ 123 then some (LStep.adv 102) else none
  | 99 => if c = 60 then some (LStep.adv 12) else none
  | 100 => if c = 123 then some (LStep.adv 54) else none
  | 101 => if c = 123 then some (LStep.adv 53) else none
  | 102 => if c ≠ 0 ∧ c ≠ 35 ∧ c ≠ 60 ∧ c ≠ 123 then some (LStep.adv 102) else none
  | _ => none

/-- States with an end-of-file branch in ts_lex. -/
def eofDelta (st : Nat) : Option Nat :=
  match st with
  | 0 => some 40
  | 37 => some 40
  | 38 => some 40
  | 39 => some 40
  | _ => none

/-- The ACCEPT_TOKEN calls of ts_lex: the symbol a state accepts on entry. -/
def acceptSym (st : Nat) : Option Nat :=
  match st with
  | 40 => some 0
  | 41 => some 1
  | 42 => some 2
  | 43 => some 2
  | 44 => some 3
  | 45 => some 4
  | 46 => some 5
  | 47 => some 6
  | 48 => some 7
  | 49 => some 7
  | 50 => some 8
  | 51 => some 9
  | 52 => some 10
  | 53 => some 11
  | 54 => some 11
  | 55 => some 12
  | 56 => some 12
  | 57 => some 13
  | 58 => some 14
  | 59 => some 15
  | 60 => some 15
  | 61 => some 16
  | 62 => some 17
  | 63 => some 17
  | 64 => some 18
  | 65 => some 19
  | 66 => some 20
  | 67 => some 21
  | 68 => some 21
  | 69 => some 21
  | 70 => some 21
  | 71 => some 21
  | 72 => some 21
  | 73 => some 21
  | 74 => some 21
  | 75 => some 21
  | 76 => some 21
  | 77 => some 21
  | 78 => some 22
  | 79 => some 23
  | 80 => some 23
  | 81 => some 24
  | 82 => some 25
  | 83 => some 25
  | 84 => some 26
  | 85 => some 26
  | 86 => some 27
  | 87 => some 28
  | 88 => some 29
  | 89 => some 30
  | 90 => some 30
  | 91 => some 31
  | 92 => some 32
  | 93 => some 32
  | 94 => some 32
  | 95 => some 32
  | 96 => some 32
  | 97 => some 32
  | 98 => some 32
  | 99 => some 32
  | 100 => some 32
  | 101 => some 32
  | 102 => some 32
  | _ => none

/-- Run the ts_lex DFA: st is the current lexer state, rem the remaining
input, skip counts characters dropped by SKIP before the token start, cons
counts characters consumed since the token start, best is the most recent
ACCEPT_TOKEN together with the position marked by mark_end.  Returns
(skipped characters, token symbol, token length) of the longest accepted
token, or none when no token pattern matches. -/
def updBest (st cons : Nat) (best : Option (Nat × Nat)) : Option (Nat × Nat) :=
  match acceptSym st with
  | some s => some (s, cons)
  | none => best

/-- Package the recorded acceptance as a token (skip, symbol, length). -/
def emitTok (skip : Nat) (b : Option (Nat × Nat)) : Option (Nat × Nat × Nat) :=
  match b with
  | some (s, len) => some (skip, s, len)
  | none => none

def lexGo (st : Nat) (rem : List Nat) (skip cons : Nat)
    (best : Option (Nat × Nat)) : Option (Nat × Nat × Nat) :=
  match rem with
  | [] =>
    match eofDelta st with
    | some st2 => emitTok skip (updBest st2 cons (updBest st cons best))
    | none => emitTok skip (updBest st cons best)
  | c :: cs =>
    match lexDelta st c with
    | some (LStep.adv st2) => lexGo st2 cs skip (cons + 1) (updBest st cons best)
    | some (LStep.skp st2) => lexGo st2 cs (skip + cons + 1) 0 (updBest st cons best)
    | none => emitTok skip (updBest st cons best)

/-- The ts_lex entry point: lex one token in the given lexer state. -/
def ts_lex (mode : Nat) (rem : List Nat) : Option (Nat × Nat × Nat) :=
  lexGo mode rem 0 0 none

inductive PAct where
  | shift (s : Nat)
  | reduce (sym count prodId : Nat)
  | accept
deriving Repr, DecidableEq

/-- The ts_lex_modes table: lexer state used by each parse state. -/
def ts_lex_modes (st : Nat) : Nat :=
  match st with
  | 0 => 0
  | 1 => 37
  | 2 => 38
  | 3 => 39
  | 4 => 5
  | 5 => 5
  | 6 => 5
  | 7 => 39
  | 8 => 5
  | 9 => 5
  | 10 => 39
  | 11 => 39
  | 12 => 3
  | 13 => 3
  | 14 => 3
  | 15 => 3
  | 16 => 3
  | 17 => 3
  | 18 => 37
  | 19 => 37
  | 20 => 3
  | 21 => 3
  | 22 => 3
  | 23 => 3
  | 24 => 3
  | 25 => 3
  | 26 => 5
  | 27 => 39
  | 28 => 39
  | 29 => 39
  | 30 => 5
  | 31 => 5
  | 32 => 5
  | 33 => 4
  | 34 => 4
  | 35 => 4
  | 36 => 5
  | 37 => 39
  | 38 => 39
  | 39 => 39
  | 40 => 5
  | 41 => 5
  | 42 => 5
  | 43 => 39
  | 44 => 39
  | 45 => 16
  | 46 => 16
  | 47 => 4
  | 48 => 4
  | 49 => 4
  | 50 => 1
  | 51 => 0
  | 52 => 0
  | 53 => 2
  | 54 => 82
  | 55 => 2
  | 56 => 79
  | 57 => 0
  | 58 => 0
  | 59 => 0
  | 60 => 2
  | 61 => 29
  | 62 => 0
  | 63 => 2
  | 64 => 3
  | 65 => 0
  | 66 => 0
  | 67 => 0
  | 68 => 0
  | 69 => 3
  | 70 => 0
  | 71 => 29
  | 72 => 0
  | 73 => 0
  | 74 => 30
  | 75 => 62
  | 76 => 0
  | 77 => 0
  | 78 => 0
  | 79 => 0
  | 80 => 59
  | 81 => 0
  | 82 => 29
  | 83 => 59
  | 84 => 62
  | 85 => 30
  | 86 => 29
  | _ => 0

def tblActions (st sym : Nat) : List PAct :=
  match st, sym with
  | 1, 0 => [PAct.reduce 33 0 0]
  | 1, 1 => [PAct.shift 18]
  | 1, 3 => [PAct.shift 53]
  | 1, 8 => [PAct.shift 82]
  | 1, 11 => [PAct.shift 46]
  | 1, 14 => [PAct.shift 80]
  | 1, 16 => [PAct.shift 75]
  | 1, 29 => [PAct.shift 74]
  | 1, 32 => [PAct.shift 10]
  | 2, 0 => [PAct.reduce 33 1 0]
  | 2, 3 => [PAct.shift 53]
  | 2, 8 => [PAct.shift 82]
  | 2, 11 => [PAct.shift 46]
  | 2, 14 => [PAct.shift 80]
  | 2, 16 => [PAct.shift 75]
  | 2, 29 => [PAct.shift 74]
  | 2, 32 => [PAct.shift 10]
  | 3, 0 => [PAct.reduce 33 2 0]
  | 3, 8 => [PAct.shift 82]
  | 3, 11 => [PAct.shift 46]
  | 3, 14 => [PAct.shift 80]
  | 3, 16 => [PAct.shift 75]
  | 3, 29 => [PAct.shift 74]
  | 3, 32 => [PAct.shift 10]
  | 4, 8 => [PAct.shift 82]
  | 4, 10 => [PAct.shift 86]
  | 4, 11 => [PAct.shift 45]
  | 4, 14 => [PAct.shift 83]
  | 4, 16 => [PAct.shift 84]
  | 4, 29 => [PAct.shift 85]
  | 4, 32 => [PAct.shift 9]
  | 5, 8 => [PAct.shift 82]
  | 5, 10 => [PAct.shift 86]
  | 5, 11 => [PAct.shift 45]
  | 5, 14 => [PAct.shift 83]
  | 5, 16 => [PAct.shift 84]
  | 5, 29 => [PAct.shift 85]
  | 5, 32 => [PAct.shift 4]
  | 6, 8 => [PAct.shift 82]
  | 6, 10 => [PAct.shift 61]
  | 6, 11 => [PAct.shift 45]
  | 6, 14 => [PAct.shift 83]
  | 6, 16 => [PAct.shift 84]
  | 6, 29 => [PAct.shift 85]
  | 6, 32 => [PAct.shift 9]
  | 7, 0 => [PAct.reduce 33 1 0]
  | 7, 8 => [PAct.shift 82]
  | 7, 11 => [PAct.shift 46]
  | 7, 14 => [PAct.shift 80]
  | 7, 16 => [PAct.shift 75]
  | 7, 29 => [PAct.shift 74]
  | 7, 32 => [PAct.shift 10]
  | 8, 8 => [PAct.shift 82]
  | 8, 10 => [PAct.shift 61]
  | 8, 11 => [PAct.shift 45]
  | 8, 14 => [PAct.shift 83]
  | 8, 16 => [PAct.shift 84]
  | 8, 29 => [PAct.shift 85]
  | 8, 32 => [PAct.shift 6]
  | 9, 8 => [PAct.reduce 54 2 0, PAct.shift 82]
  | 9, 10 => [PAct.reduce 54 2 0]
  | 9, 11 => [PAct.reduce 54 2 0, PAct.shift 45]
  | 9, 14 => [PAct.reduce 54 2 0, PAct.shift 83]
  | 9, 16 => [PAct.reduce 54 2 0, PAct.shift 84]
  | 9, 29 => [PAct.reduce 54 2 0, PAct.shift 85]
  | 9, 32 => [PAct.reduce 54 2 0, PAct.shift 9]
  | 10, 0 => [PAct.reduce 38 1 0]
  | 10, 8 => [PAct.shift 82]
  | 10, 11 => [PAct.shift 46]
  | 10, 14 => [PAct.shift 80]
  | 10, 16 => [PAct.shift 75]
  | 10, 29 => [PAct.shift 74]
  | 10, 32 => [PAct.shift 11]
  | 11, 0 => [PAct.reduce 54 2 0]
  | 11, 8 => [PAct.reduce 54 2 0, PAct.shift 82]
  | 11, 11 => [PAct.reduce 54 2 0, PAct.shift 46]
  | 11, 14 => [PAct.reduce 54 2 0, PAct.shift 80]
  | 11, 16 => [PAct.reduce 54 2 0, PAct.shift 75]
  | 11, 29 => [PAct.reduce 54 2 0, PAct.shift 74]
  | 11, 32 => [PAct.reduce 54 2 0, PAct.shift 11]
  | 12, 9 => [PAct.shift 36]
  | 12, 20 => [PAct.shift 22]
  | 12, 21 => [PAct.shift 20]
  | 12, 22 => [PAct.shift 56]
  | 12, 24 => [PAct.shift 54]
  | 12, 26 => [PAct.shift 21]
  | 12, 27 => [PAct.shift 25]
  | 12, 28 => [PAct.shift 25]
  | 13, 9 => [PAct.reduce 55 2 0]
  | 13, 20 => [PAct.reduce 55 2 0, PAct.shift 22]
  | 13, 21 => [PAct.reduce 55 2 0, PAct.shift 20]
  | 13, 22 => [PAct.reduce 55 2 0, PAct.shift 56]
  | 13, 24 => [PAct.reduce 55 2 0, PAct.shift 54]
  | 13, 26 => [PAct.reduce 55 2 0, PAct.shift 21]
  | 13, 27 => [PAct.reduce 55 2 0, PAct.shift 25]
  | 13, 28 => [PAct.reduce 55 2 0, PAct.shift 25]
  | 14, 9 => [PAct.reduce 48 1 0]
  | 14, 20 => [PAct.shift 22]
  | 14, 21 => [PAct.shift 20]
  | 14, 22 => [PAct.shift 56]
  | 14, 24 => [PAct.shift 54]
  | 14, 26 => [PAct.shift 21]
  | 14, 27 => [PAct.shift 25]
  | 14, 28 => [PAct.shift 25]
  | 15, 9 => [PAct.reduce 44 2 4]
  | 15, 20 => [PAct.shift 22]
  | 15, 21 => [PAct.shift 20]
  | 15, 22 => [PAct.shift 56]
  | 15, 24 => [PAct.shift 54]
  | 15, 26 => [PAct.shift 21]
  | 15, 27 => [PAct.shift 25]
  | 15, 28 => [PAct.shift 25]
  | 16, 9 => [PAct.shift 32]
  | 16, 20 => [PAct.shift 22]
  | 16, 21 => [PAct.shift 20]
  | 16, 22 => [PAct.shift 56]
  | 16, 24 => [PAct.shift 54]
  | 16, 26 => [PAct.shift 21]
  | 16, 27 => [PAct.shift 25]
  | 16, 28 => [PAct.shift 25]
  | 17, 20 => [PAct.shift 22]
  | 17, 21 => [PAct.shift 22]
  | 17, 22 => [PAct.shift 56]
  | 17, 24 => [PAct.shift 54]
  | 17, 26 => [PAct.shift 24]
  | 17, 27 => [PAct.shift 25]
  | 17, 28 => [PAct.shift 25]
  | 18, 0 => [PAct.reduce 34 1 0]
  | 18, 1 => [PAct.shift 19]
  | 18, 3 => [PAct.reduce 34 1 0]
  | 18, 8 => [PAct.reduce 34 1 0]
  | 18, 11 => [PAct.reduce 34 1 0]
  | 18, 14 => [PAct.reduce 34 1 0]
  | 18, 16 => [PAct.reduce 34 1 0]
  | 18, 29 => [PAct.reduce 34 1 0]
  | 18, 32 => [PAct.reduce 34 1 0]
  | 19, 0 => [PAct.reduce 52 2 0]
  | 19, 1 => [PAct.reduce 52 2 0, PAct.shift 19]
  | 19, 3 => [PAct.reduce 52 2 0]
  | 19, 8 => [PAct.reduce 52 2 0]
  | 19, 11 => [PAct.reduce 52 2 0]
  | 19, 14 => [PAct.reduce 52 2 0]
  | 19, 16 => [PAct.reduce 52 2 0]
  | 19, 29 => [PAct.reduce 52 2 0]
  | 19, 32 => [PAct.reduce 52 2 0]
  | 20, 9 => [PAct.reduce 48 1 0]
  | 20, 19 => [PAct.shift 17]
  | 20, 20 => [PAct.reduce 48 1 0]
  | 20, 21 => [PAct.reduce 48 1 0]
  | 20, 22 => [PAct.reduce 48 1 0]
  | 20, 24 => [PAct.reduce 48 1 0]
  | 20, 26 => [PAct.reduce 48 1 0]
  | 20, 27 => [PAct.reduce 48 1 0]
  | 20, 28 => [PAct.reduce 48 1 0]
  | 21, 9 => [PAct.reduce 46 1 0]
  | 21, 20 => [PAct.reduce 46 1 0]
  | 21, 21 => [PAct.reduce 46 1 0]
  | 21, 22 => [PAct.reduce 46 1 0]
  | 21, 24 => [PAct.reduce 46 1 0]
  | 21, 26 => [PAct.reduce 46 1 0]
  | 21, 27 => [PAct.reduce 46 1 0]
  | 21, 28 => [PAct.reduce 46 1 0]
  | 22, 9 => [PAct.reduce 48 1 0]
  | 22, 20 => [PAct.reduce 48 1 0]
  | 22, 21 => [PAct.reduce 48 1 0]
  | 22, 22 => [PAct.reduce 48 1 0]
  | 22, 24 => [PAct.reduce 48 1 0]
  | 22, 26 => [PAct.reduce 48 1 0]
  | 22, 27 => [PAct.reduce 48 1 0]
  | 22, 28 => [PAct.reduce 48 1 0]
  | 23, 9 => [PAct.reduce 49 3 0]
  | 23, 20 => [PAct.reduce 49 3 0]
  | 23, 21 => [PAct.reduce 49 3 0]
  | 23, 22 => [PAct.reduce 49 3 0]
  | 23, 24 => [PAct.reduce 49 3 0]
  | 23, 26 => [PAct.reduce 49 3 0]
  | 23, 27 => [PAct.reduce 49 3 0]
  | 23, 28 => [PAct.reduce 49 3 0]
  | 24, 9 => [PAct.reduce 47 3 7]
  | 24, 20 => [PAct.reduce 47 3 7]
  | 24, 21 => [PAct.reduce 47 3 7]
  | 24, 22 => [PAct.reduce 47 3 7]
  | 24, 24 => [PAct.reduce 47 3 7]
  | 24, 26 => [PAct.reduce 47 3 7]
  | 24, 27 => [PAct.reduce 47 3 7]
  | 24, 28 => [PAct.reduce 47 3 7]
  | 25, 9 => [PAct.reduce 50 1 0]
  | 25, 20 => [PAct.reduce 50 1 0]
  | 25, 21 => [PAct.reduce 50 1 0]
  | 25, 22 => [PAct.reduce 50 1 0]
  | 25, 24 => [PAct.reduce 50 1 0]
  | 25, 26 => [PAct.reduce 50 1 0]
  | 25, 27 => [PAct.reduce 50 1 0]
  | 25, 28 => [PAct.reduce 50 1 0]
  | 26, 8 => [PAct.reduce 45 3 0]
  | 26, 10 => [PAct.reduce 45 3 0]
  | 26, 11 => [PAct.reduce 45 3 0]
  | 26, 14 => [PAct.reduce 45 3 0]
  | 26, 16 => [PAct.reduce 45 3 0]
  | 26, 29 => [PAct.reduce 45 3 0]
  | 26, 32 => [PAct.reduce 45 3 0]
  | 27, 0 => [PAct.reduce 42 3 2]
  | 27, 8 => [PAct.reduce 42 3 2]
  | 27, 11 => [PAct.reduce 42 3 2]
  | 27, 14 => [PAct.reduce 42 3 2]
  | 27, 16 => [PAct.reduce 42 3 2]
  | 27, 29 => [PAct.reduce 42 3 2]
  | 27, 32 => [PAct.reduce 42 3 2]
  | 28, 0 => [PAct.reduce 35 5 6]
  | 28, 8 => [PAct.reduce 35 5 6]
  | 28, 11 => [PAct.reduce 35 5 6]
  | 28, 14 => [PAct.reduce 35 5 6]
  | 28, 16 => [PAct.reduce 35 5 6]
  | 28, 29 => [PAct.reduce 35 5 6]
  | 28, 32 => [PAct.reduce 35 5 6]
  | 29, 0 => [PAct.reduce 40 2 0]
  | 29, 8 => [PAct.reduce 40 2 0]
  | 29, 11 => [PAct.reduce 40 2 0]
  | 29, 14 => [PAct.reduce 40 2 0]
  | 29, 16 => [PAct.reduce 40 2 0]
  | 29, 29 => [PAct.reduce 40 2 0]
  | 29, 32 => [PAct.reduce 40 2 0]
  | 30, 8 => [PAct.reduce 40 2 0]
  | 30, 10 => [PAct.reduce 40 2 0]
  | 30, 11 => [PAct.reduce 40 2 0]
  | 30, 14 => [PAct.reduce 40 2 0]
  | 30, 16 => [PAct.reduce 40 2 0]
  | 30, 29 => [PAct.reduce 40 2 0]
  | 30, 32 => [PAct.reduce 40 2 0]
  | 31, 8 => [PAct.reduce 43 3 0]
  | 31, 10 => [PAct.reduce 43 3 0]
  | 31, 11 => [PAct.reduce 43 3 0]
  | 31, 14 => [PAct.reduce 43 3 0]
  | 31, 16 => [PAct.reduce 43 3 0]
  | 31, 29 => [PAct.reduce 43 3 0]
  | 31, 32 => [PAct.reduce 43 3 0]
  | 32, 8 => [PAct.reduce 41 4 2]
  | 32, 10 => [PAct.reduce 41 4 2]
  | 32, 11 => [PAct.reduce 41 4 2]
  | 32, 14 => [PAct.reduce 41 4 2]
  | 32, 16 => [PAct.reduce 41 4 2]
  | 32, 29 => [PAct.reduce 41 4 2]
  | 32, 32 => [PAct.reduce 41 4 2]
  | 33, 1 => [PAct.shift 49]
  | 33, 3 => [PAct.shift 60]
  | 33, 4 => [PAct.shift 49]
  | 33, 5 => [PAct.shift 59]
  | 34, 1 => [PAct.reduce 53 2 0, PAct.shift 49]
  | 34, 3 => [PAct.reduce 53 2 0]
  | 34, 4 => [PAct.reduce 53 2 0, PAct.shift 49]
  | 34, 5 => [PAct.reduce 53 2 0, PAct.shift 59]
  | 35, 1 => [PAct.shift 49]
  | 35, 3 => [PAct.shift 55]
  | 35, 4 => [PAct.shift 49]
  | 35, 5 => [PAct.shift 59]
  | 36, 8 => [PAct.reduce 41 3 2]
  | 36, 10 => [PAct.reduce 41 3 2]
  | 36, 11 => [PAct.reduce 41 3 2]
  | 36, 14 => [PAct.reduce 41 3 2]
  | 36, 16 => [PAct.reduce 41 3 2]
  | 36, 29 => [PAct.reduce 41 3 2]
  | 36, 32 => [PAct.reduce 41 3 2]
  | 37, 0 => [PAct.reduce 51 3 0]
  | 37, 8 => [PAct.reduce 51 3 0]
  | 37, 11 => [PAct.reduce 51 3 0]
  | 37, 14 => [PAct.reduce 51 3 0]
  | 37, 16 => [PAct.reduce 51 3 0]
  | 37, 29 => [PAct.reduce 51 3 0]
  | 37, 32 => [PAct.reduce 51 3 0]
  | 38, 0 => [PAct.reduce 35 4 0]
  | 38, 8 => [PAct.reduce 35 4 0]
  | 38, 11 => [PAct.reduce 35 4 0]
  | 38, 14 => [PAct.reduce 35 4 0]
  | 38, 16 => [PAct.reduce 35 4 0]
  | 38, 29 => [PAct.reduce 35 4 0]
  | 38, 32 => [PAct.reduce 35 4 0]
  | 39, 0 => [PAct.reduce 40 3 0]
  | 39, 8 => [PAct.reduce 40 3 0]
  | 39, 11 => [PAct.reduce 40 3 0]
  | 39, 14 => [PAct.reduce 40 3 0]
  | 39, 16 => [PAct.reduce 40 3 0]
  | 39, 29 => [PAct.reduce 40 3 0]
  | 39, 32 => [PAct.reduce 40 3 0]
  | 40, 8 => [PAct.reduce 51 3 0]
  | 40, 10 => [PAct.reduce 51 3 0]
  | 40, 11 => [PAct.reduce 51 3 0]
  | 40, 14 => [PAct.reduce 51 3 0]
  | 40, 16 => [PAct.reduce 51 3 0]
  | 40, 29 => [PAct.reduce 51 3 0]
  | 40, 32 => [PAct.reduce 51 3 0]
  | 41, 8 => [PAct.reduce 40 3 0]
  | 41, 10 => [PAct.reduce 40 3 0]
  | 41, 11 => [PAct.reduce 40 3 0]
  | 41, 14 => [PAct.reduce 40 3 0]
  | 41, 16 => [PAct.reduce 40 3 0]
  | 41, 29 => [PAct.reduce 40 3 0]
  | 41, 32 => [PAct.reduce 40 3 0]
  | 42, 8 => [PAct.reduce 42 3 2]
  | 42, 10 => [PAct.reduce 42 3 2]
  | 42, 11 => [PAct.reduce 42 3 2]
  | 42, 14 => [PAct.reduce 42 3 2]
  | 42, 16 => [PAct.reduce 42 3 2]
  | 42, 29 => [PAct.reduce 42 3 2]
  | 42, 32 => [PAct.reduce 42 3 2]
  | 43, 0 => [PAct.reduce 43 3 0]
  | 43, 8 => [PAct.reduce 43 3 0]
  | 43, 11 => [PAct.reduce 43 3 0]
  | 43, 14 => [PAct.reduce 43 3 0]
  | 43, 16 => [PAct.reduce 43 3 0]
  | 43, 29 => [PAct.reduce 43 3 0]
  | 43, 32 => [PAct.reduce 43 3 0]
  | 44, 0 => [PAct.reduce 45 3 0]
  | 44, 8 => [PAct.reduce 45 3 0]
  | 44, 11 => [PAct.reduce 45 3 0]
  | 44, 14 => [PAct.reduce 45 3 0]
  | 44, 16 => [PAct.reduce 45 3 0]
  | 44, 29 => [PAct.reduce 45 3 0]
  | 44, 32 => [PAct.reduce 45 3 0]
  | 45, 12 => [PAct.shift 71]
  | 45, 13 => [PAct.shift 70]
  | 45, 20 => [PAct.shift 22]
  | 45, 21 => [PAct.shift 14]
  | 46, 12 => [PAct.shift 71]
  | 46, 13 => [PAct.shift 70]
  | 46, 20 => [PAct.shift 22]
  | 46, 21 => [PAct.shift 14]
  | 47, 1 => [PAct.reduce 37 3 5]
  | 47, 3 => [PAct.reduce 37 3 5]
  | 47, 4 => [PAct.reduce 37 3 5]
  | 47, 5 => [PAct.reduce 37 3 5]
  | 48, 1 => [PAct.reduce 37 4 8]
  | 48, 3 => [PAct.reduce 37 4 8]
  | 48, 4 => [PAct.reduce 37 4 8]
  | 48, 5 => [PAct.reduce 37 4 8]
  | 49, 1 => [PAct.reduce 53 1 0]
  | 49, 3 => [PAct.reduce 53 1 0]
  | 49, 4 => [PAct.reduce 53 1 0]
  | 49, 5 => [PAct.reduce 53 1 0]
  | 50, 2 => [PAct.shift 47]
  | 50, 7 => [PAct.shift 63]
  | 51, 9 => [PAct.shift 44]
  | 52, 9 => [PAct.shift 27]
  | 53, 2 => [PAct.shift 33]
  | 54, 25 => [PAct.shift 58]
  | 55, 2 => [PAct.shift 28]
  | 56, 23 => [PAct.shift 57]
  | 57, 22 => [PAct.shift 23]
  | 58, 24 => [PAct.shift 23]
  | 59, 6 => [PAct.shift 50]
  | 60, 2 => [PAct.shift 38]
  | 61, 21 => [PAct.shift 52]
  | 62, 0 => [PAct.reduce 33 2 0]
  | 63, 2 => [PAct.shift 48]
  | 64, 31 => [PAct.shift 37]
  | 65, 18 => [PAct.shift 44]
  | 66, 9 => [PAct.reduce 44 2 3]
  | 67, 9 => [PAct.reduce 44 1 1]
  | 68, 0 => [PAct.reduce 33 3 0]
  | 69, 31 => [PAct.shift 40]
  | 70, 9 => [PAct.reduce 44 1 0]
  | 71, 21 => [PAct.shift 66]
  | 72, 0 => [PAct.reduce 33 1 0]
  | 73, 0 => [PAct.accept]
  | 74, 30 => [PAct.shift 64]
  | 75, 17 => [PAct.shift 65]
  | 76, 9 => [PAct.shift 31]
  | 77, 9 => [PAct.shift 26]
  | 78, 18 => [PAct.shift 26]
  | 79, 9 => [PAct.shift 43]
  | 80, 15 => [PAct.shift 51]
  | 81, 9 => [PAct.shift 42]
  | 82, 21 => [PAct.shift 12]
  | 83, 15 => [PAct.shift 77]
  | 84, 17 => [PAct.shift 78]
  | 85, 30 => [PAct.shift 69]
  | 86, 21 => [PAct.shift 81]
  | _, _ => []

def tblGoto (st sym : Nat) : Option Nat :=
  match st, sym with
  | 1, 33 => some 73
  | 1, 34 => some 2
  | 1, 35 => some 7
  | 1, 38 => some 72
  | 1, 39 => some 10
  | 1, 40 => some 10
  | 1, 41 => some 8
  | 1, 43 => some 10
  | 1, 45 => some 10
  | 1, 51 => some 10
  | 1, 52 => some 18
  | 1, 54 => some 10
  | 2, 35 => some 3
  | 2, 38 => some 62
  | 2, 39 => some 10
  | 2, 40 => some 10
  | 2, 41 => some 8
  | 2, 43 => some 10
  | 2, 45 => some 10
  | 2, 51 => some 10
  | 2, 54 => some 10
  | 3, 38 => some 68
  | 3, 39 => some 10
  | 3, 40 => some 10
  | 3, 41 => some 8
  | 3, 43 => some 10
  | 3, 45 => some 10
  | 3, 51 => some 10
  | 3, 54 => some 10
  | 4, 39 => some 9
  | 4, 40 => some 9
  | 4, 41 => some 5
  | 4, 42 => some 41
  | 4, 43 => some 9
  | 4, 45 => some 9
  | 4, 51 => some 9
  | 4, 54 => some 9
  | 5, 39 => some 4
  | 5, 40 => some 4
  | 5, 41 => some 5
  | 5, 42 => some 30
  | 5, 43 => some 4
  | 5, 45 => some 4
  | 5, 51 => some 4
  | 5, 54 => some 4
  | 6, 39 => some 9
  | 6, 40 => some 9
  | 6, 41 => some 5
  | 6, 42 => some 39
  | 6, 43 => some 9
  | 6, 45 => some 9
  | 6, 51 => some 9
  | 6, 54 => some 9
  | 7, 38 => some 62
  | 7, 39 => some 10
  | 7, 40 => some 10
  | 7, 41 => some 8
  | 7, 43 => some 10
  | 7, 45 => some 10
  | 7, 51 => some 10
  | 7, 54 => some 10
  | 8, 39 => some 6
  | 8, 40 => some 6
  | 8, 41 => some 5
  | 8, 42 => some 29
  | 8, 43 => some 6
  | 8, 45 => some 6
  | 8, 51 => some 6
  | 8, 54 => some 6
  | 9, 39 => some 9
  | 9, 40 => some 9
  | 9, 41 => some 5
  | 9, 43 => some 9
  | 9, 45 => some 9
  | 9, 51 => some 9
  | 9, 54 => some 9
  | 10, 39 => some 11
  | 10, 40 => some 11
  | 10, 41 => some 8
  | 10, 43 => some 11
  | 10, 45 => some 11
  | 10, 51 => some 11
  | 10, 54 => some 11
  | 11, 39 => some 11
  | 11, 40 => some 11
  | 11, 41 => some 8
  | 11, 43 => some 11
  | 11, 45 => some 11
  | 11, 51 => some 11
  | 11, 54 => some 11
  | 12, 46 => some 16
  | 12, 47 => some 21
  | 12, 48 => some 21
  | 12, 49 => some 21
  | 12, 50 => some 21
  | 12, 55 => some 16
  | 13, 46 => some 13
  | 13, 47 => some 21
  | 13, 48 => some 21
  | 13, 49 => some 21
  | 13, 50 => some 21
  | 13, 55 => some 13
  | 14, 46 => some 15
  | 14, 47 => some 21
  | 14, 48 => some 21
  | 14, 49 => some 21
  | 14, 50 => some 21
  | 14, 55 => some 15
  | 15, 46 => some 13
  | 15, 47 => some 21
  | 15, 48 => some 21
  | 15, 49 => some 21
  | 15, 50 => some 21
  | 15, 55 => some 13
  | 16, 46 => some 13
  | 16, 47 => some 21
  | 16, 48 => some 21
  | 16, 49 => some 21
  | 16, 50 => some 21
  | 16, 55 => some 13
  | 17, 48 => some 24
  | 17, 49 => some 24
  | 17, 50 => some 24
  | 18, 52 => some 19
  | 19, 52 => some 19
  | 33, 36 => some 49
  | 33, 37 => some 49
  | 33, 53 => some 35
  | 34, 36 => some 49
  | 34, 37 => some 49
  | 34, 53 => some 34
  | 35, 36 => some 49
  | 35, 37 => some 49
  | 35, 53 => some 34
  | 45, 44 => some 76
  | 45, 48 => some 67
  | 46, 44 => some 79
  | 46, 48 => some 67
  | _, _ => none

/-- Syntax tree nodes.  A leaf keeps both the whitespace the lexer skipped
in front of the token and the characters of the token itself; err is the
designated error node of the error-recovery model (spec section 7). -/
inductive Tree where
  | leaf (sym : Nat) (skipped chars : List Nat)
  | node (sym : Nat) (children : List Tree)
  | err (chars : List Nat)
deriving Repr

/-- A parse-stack frame: an LR state together with the subtree built for
the symbol that entered it. -/
structure Frame where
  st : Nat
  t : Tree

/-- State on top of the parse stack; the start state is 1. -/
def topState (stk : List Frame) : Nat :=
  match stk with
  | [] => 1
  | f :: _ => f.st

/-- REDUCE: pop count frames, build the node, follow the goto entry. -/
def doReduce (stk : List Frame) (sym count : Nat) : List Frame :=
  let children := ((stk.take count).reverse).map Frame.t
  let rest := stk.drop count
  let target := (tblGoto (topState rest) sym).getD 0
  Frame.mk target (Tree.node sym children) :: rest

/-- Apply the action-table entry for the lookahead token repeatedly (a
REDUCE keeps the lookahead, a SHIFT consumes it); fuel bounds the reduce
chain, none means the token cannot advance any rule. -/
def applyActs : Nat → List Frame → Nat → List Nat → List Nat → Option (List Frame)
  | 0, _, _, _, _ => none
  | fuel + 1, stk, sym, skipped, chars =>
    match tblActions (topState stk) sym with
    | [PAct.shift s] => some (Frame.mk s (Tree.leaf sym skipped chars) :: stk)
    | [PAct.reduce rsym count _] => applyActs fuel (doReduce stk rsym count) sym skipped chars
    | [PAct.reduce rsym count _, PAct.shift s] =>
        some (Frame.mk s (Tree.leaf sym skipped chars) :: doReduce stk rsym count)
    | _ => none

/-- Symbol code used for the designated error node (spec section 7). -/
def errorSym : Nat := 99

/-- Wrap an unfinished stack into an error-rooted tree, keeping every
already-built child (spec section 7: recovery keeps built children). -/
def errWrap (stk : List Frame) : Tree :=
  Tree.node errorSym ((stk.reverse).map Frame.t)

/-- Root extraction at ACCEPT: the lone remaining frame holds the tree. -/
def acceptRoot (stk : List Frame) : Tree :=
  match stk with
  | [f] => f.t
  | _ => errWrap stk

/-- Drain the stack on the end-of-input token: reduce until ACCEPT. -/
def finishStk : Nat → List Frame → Tree
  | 0, stk => errWrap stk
  | fuel + 1, stk =>
    match tblActions (topState stk) 0 with
    | [PAct.reduce rsym count _] => finishStk fuel (doReduce stk rsym count)
    | [PAct.accept] => acceptRoot stk
    | _ => errWrap stk

/-- Result of a parse: the tree, the whitespace skipped after the last
token, and the number of tokenizer calls made. -/
structure ParseResult where
  root : Tree
  trailing : List Nat
  steps : Nat
deriving Repr

/-- The syntax builder, modelled from the spec (sections 4.1, 4.2, 7):
lex one token in the mode of the current state, apply the table actions,
and on a token or byte that cannot advance any rule emit an error leaf and
continue, so a tree is produced for every input.  On empty remaining input
the lexer can only deliver the zero-width end token (or fail), so the
stack is drained directly.  The structural fuel argument only bounds the
recursion; one unit per consumed character plus one suffices, which is
what parse supplies, and the fuel-exhausted branch still returns all
material processed so far. -/
def parseLoop : Nat → List Frame → List Nat → ParseResult
  | 0, stk, rem => ParseResult.mk (errWrap stk) rem 1
  | _ + 1, stk, [] => ParseResult.mk (finishStk 50 stk) [] 1
  | fuel + 1, stk, c :: cs =>
    match ts_lex (ts_lex_modes (topState stk)) (c :: cs) with
    | none =>
      let r := parseLoop fuel (Frame.mk (topState stk) (Tree.err [c]) :: stk) cs
      ParseResult.mk r.root r.trailing (r.steps + 1)
    | some (skip, sym, len) =>
      if sym = 0 then
        ParseResult.mk (finishStk 50 stk) (c :: cs) 1
      else if len = 0 then
        let r := parseLoop fuel (Frame.mk (topState stk) (Tree.err [c]) :: stk) cs
        ParseResult.mk r.root r.trailing (r.steps + 1)
      else
        let skipped := (c :: cs).take skip
        let chars := ((c :: cs).drop skip).take len
        let rem2 := (c :: cs).drop (skip + len)
        match applyActs 50 stk sym skipped chars with
        | some stk2 =>
          let r := parseLoop fuel stk2 rem2
          ParseResult.mk r.root r.trailing (r.steps + 1)
        | none =>
          let r := parseLoop fuel (Frame.mk (topState stk) (Tree.err (skipped ++ chars)) :: stk) rem2
          ParseResult.mk r.root r.trailing (r.steps + 1)

/-- The parse entry point of the design (spec section 6): the fuel of one
tokenizer call per character plus one is always sufficient, since every
loop iteration consumes at least one input character. -/
def parse (input : List Nat) : ParseResult :=
  parseLoop (input.length + 1) [] input

mutual

/-- All characters covered by a tree, skipped whitespace included. -/
def treeText : Tree → List Nat
  | Tree.leaf _ sk cs => sk ++ cs
  | Tree.node _ ch => forestText ch
  | Tree.err cs => cs

def forestText : List Tree → List Nat
  | [] => []
  | t :: ts => treeText t ++ forestText ts

end

mutual

/-- Characters of the leaf token spans only: the whitespace skipped in
front of a token is not part of any token span. -/
def leafChars : Tree → List Nat
  | Tree.leaf _ _ cs => cs
  | Tree.node _ ch => forestChars ch
  | Tree.err cs => cs

def forestChars : List Tree → List Nat
  | [] => []
  | t :: ts => leafChars t ++ forestChars ts

end

mutual

/-- Whether a tree contains an error node. -/
def hasErr : Tree → Bool
  | Tree.leaf _ _ _ => false
  | Tree.node s ch => s == errorSym || forestErr ch
  | Tree.err _ => true

def forestErr : List Tree → Bool
  | [] => false
  | t :: ts => hasErr t || forestErr ts

end

mutual

/-- The leaf tokens of a tree in source order, as (symbol, characters). -/
def leaves : Tree → List (Nat × List Nat)
  | Tree.leaf s _ cs => [(s, cs)]
  | Tree.node _ ch => forestLeaves ch
  | Tree.err cs => [(errorSym, cs)]

def forestLeaves : List Tree → List (Nat × List Nat)
  | [] => []
  | t :: ts => leaves t ++ forestLeaves ts

end

/-- Characters covered by an entire parse stack, bottom-up. -/
def stackText (stk : List Frame) : List Nat :=
  forestText ((stk.reverse).map Frame.t)

/-- Code points of the seven-character input: open brace, open brace,
space, letter a, space, close brace, close brace. -/
def exSpacedExpr : List Nat := [123, 123, 32, 97, 32, 125, 125]

/-- Code points of: open handlebars block named if with argument x, text
hi, close marker named foo. -/
def exMismatch : List Nat :=
  [123, 123, 35, 105, 102, 32, 120, 125, 125, 104, 105, 123, 123, 47, 102, 111, 111, 125, 125]

/-- Code points of: open handlebars block named if with argument x, text
hi, close marker with empty name. -/
def exEmptyClose : List Nat :=
  [123, 123, 35, 105, 102, 32, 120, 125, 125, 104, 105, 123, 123, 47, 125, 125]

/-- Code points of: dash-dash comment open, space, note, space, dash dash,
close braces. -/
def exDashComment : List Nat :=
  [123, 123, 33, 45, 45, 32, 110, 111, 116, 101, 32, 45, 45, 125, 125]

/-- The body of the dash-dash comment example after its opening token. -/
def exDashCommentBody : List Nat := [32, 110, 111, 116, 101, 32, 45, 45, 125, 125]

/-- Code points of the marker opener. -/
def markerOpen : List Nat := [60, 60, 60, 100, 111, 116, 112, 114, 111, 109, 112, 116, 58]

/-- Code points of the marker example with content: space raw space stuff
space. -/
def exMarker : List Nat :=
  markerOpen ++ [32, 114, 97, 119, 32, 115, 116, 117, 102, 102, 32] ++ [62, 62, 62]

/-- Marker example whose content holds a single greater-than sign but not
the closing triple. -/
def exMarkerGt : List Nat := markerOpen ++ [97, 62, 98] ++ [62, 62, 62]

/-- Code points of: letter a, hash, letter b. -/
def exHash : List Nat := [97, 35, 98]

/-- Code points of: handlebars expression a, space, hash, letter b. -/
def exWsHash : List Nat := [123, 123, 97, 125, 125, 32, 35, 98]

/-- Arbitrary binary garbage, a NUL byte included. -/
def exGarbage : List Nat := [0, 200, 10, 255]

/-- Characters that may continue a path token: dot, digits, letters,
underscore (taken verbatim from the lexer transition conditions). -/
def isPathChar (c : Nat) : Prop :=
  c = 46 ∨ (48 ≤ c ∧ c ≤ 57) ∨ (65 ≤ c ∧ c ≤ 90) ∨ c = 95 ∨ (97 ≤ c ∧ c ≤ 122)

instance (c : Nat) : Decidable (isPathChar c) :=
  inferInstanceAs (Decidable (c = 46 ∨ (48 ≤ c ∧ c ≤ 57) ∨ (65 ≤ c ∧ c ≤ 90) ∨ c = 95 ∨ (97 ≤ c ∧ c ≤ 122)))

/-- Lexer states of the partial-match chains behind the less-than and
brace openers in template text: none accepts the text symbol, none has an
end-of-file branch, and every transition stays in the set. -/
def chainList : List Nat := [12, 17, 19, 24, 21, 23, 20, 18, 22, 25, 11, 53, 58, 9, 50, 61, 88]

theorem updBest_len (st cons : Nat) (best : Option (Nat × Nat)) (s l : Nat)
    (h : updBest st cons best = some (s, l)) : l = cons ∨ best = some (s, l) := by
  unfold updBest at h
  rcases ha : acceptSym st with _ | s0 <;> rw [ha] at h
  · exact Or.inr h
  · simp only [Option.some.injEq, Prod.mk.injEq] at h
    exact Or.inl h.2.symm

theorem emitTok_len (skip : Nat) (b : Option (Nat × Nat)) (r : Nat × Nat × Nat)
    (h : emitTok skip b = some r) : b = some (r.2.1, r.2.2) := by
  unfold emitTok at h
  rcases hb : b with _ | ⟨s, l⟩ <;> rw [hb] at h
  · cases h
  · simp only [Option.some.injEq] at h
    simp [← h]

theorem forestText_append (a b : List Tree) :
    forestText (a ++ b) = forestText a ++ forestText b := by
  induction a with
  | nil => simp [forestText]
  | cons t ts ih => simp [forestText, ih]

theorem stackText_cons (f : Frame) (stk : List Frame) :
    stackText (f :: stk) = stackText stk ++ treeText f.t := by
  simp [stackText, forestText_append, forestText, treeText]

theorem stackText_doReduce (stk : List Frame) (sym count : Nat) :
    stackText (doReduce stk sym count) = stackText stk := by
  rw [doReduce]
  simp only [stackText_cons]
  have hsplit : stk = stk.take count ++ stk.drop count := (List.take_append_drop count stk).symm
  calc stackText (stk.drop count) ++ treeText (Tree.node sym (((stk.take count).reverse).map Frame.t))
      = forestText (((stk.drop count).reverse).map Frame.t) ++
          forestText (((stk.take count).reverse).map Frame.t) := by
        simp [stackText, treeText]
    _ = forestText ((((stk.drop count).reverse).map Frame.t) ++
          (((stk.take count).reverse).map Frame.t)) := (forestText_append _ _).symm
    _ = stackText stk := by
        rw [stackText]
        congr 1
        rw [← List.map_append, ← List.reverse_append]
        exact congrArg _ (congrArg _ hsplit.symm)

theorem applyActs_text (fuel : Nat) (stk : List Frame) (sym : Nat)
    (sk ch : List Nat) (stk2 : List Frame)
    (h : applyActs fuel stk sym sk ch = some stk2) :
    stackText stk2 = stackText stk ++ (sk ++ ch) := by
  induction fuel generalizing stk with
  | zero => cases h
  | succ fuel ih =>
    rw [applyActs] at h
    rcases ha : tblActions (topState stk) sym with _ | ⟨a, acts⟩ <;> rw [ha] at h
    · cases h
    · match a, acts with
      | PAct.shift s, [] =>
        simp only [Option.some.injEq] at h
        rw [← h, stackText_cons]
        simp [treeText]
      | PAct.reduce rsym count p, [] =>
        rw [← stackText_doReduce stk rsym count]
        exact ih _ h
      | PAct.reduce rsym count p, [PAct.shift s] =>
        simp only [Option.some.injEq] at h
        rw [← h, stackText_cons, stackText_doReduce]
        simp [treeText]
      | PAct.shift s, b :: bs => cases h
      | PAct.reduce rsym count p, PAct.reduce r2 c2 p2 :: bs => cases h
      | PAct.reduce rsym count p, PAct.accept :: bs => cases h
      | PAct.reduce rsym count p, PAct.shift s :: b :: bs => cases h
      | PAct.accept, _ => cases h

theorem errWrap_text (stk : List Frame) : treeText (errWrap stk) = stackText stk := by
  simp [errWrap, treeText, stackText]

theorem acceptRoot_text (stk : List Frame) : treeText (acceptRoot stk) = stackText stk := by
  rcases stk with _ | ⟨f, rest⟩
  · simp [acceptRoot, errWrap, treeText, stackText]
  · rcases rest with _ | ⟨g, rest2⟩
    · simp [acceptRoot, stackText, forestText, treeText]
    · simp [acceptRoot, errWrap, treeText, stackText]

theorem finishStk_text (fuel : Nat) (stk : List Frame) :
    treeText (finishStk fuel stk) = stackText stk := by
  induction fuel generalizing stk with
  | zero => simp [finishStk, errWrap_text]
  | succ fuel ih =>
    rcases ha : tblActions (topState stk) 0 with _ | ⟨a, acts⟩
    · rw [finishStk, ha, errWrap_text]
    · rcases a with s | ⟨rsym, count, p⟩ | _
      · rcases acts with _ | ⟨b, bs⟩ <;> rw [finishStk, ha, errWrap_text]
      · rcases acts with _ | ⟨b, bs⟩
        · rw [finishStk, ha, ih, stackText_doReduce]
        · rw [finishStk, ha, errWrap_text]
      · rcases acts with _ | ⟨b, bs⟩
        · rw [finishStk, ha, acceptRoot_text]
        · rw [finishStk, ha, errWrap_text]

theorem consume_append (l : List Nat) (skip len : Nat) :
    (l.take skip ++ (l.drop skip).take len) ++ l.drop (skip + len) = l := by
  rw [← List.drop_drop, List.append_assoc, List.take_append_drop, List.take_append_drop]

theorem parseLoop_text (fuel : Nat) : ∀ (stk : List Frame) (rem : List Nat),
    treeText (parseLoop fuel stk rem).root ++ (parseLoop fuel stk rem).trailing =
      stackText stk ++ rem := by
  induction fuel with
  | zero =>
    intro stk rem
    rw [parseLoop]
    simp [errWrap_text]
  | succ fuel ih =>
    intro stk rem
    rcases rem with _ | ⟨c, cs⟩
    · rw [parseLoop]
      simp [finishStk_text]
    · rw [parseLoop]
      rcases h : ts_lex (ts_lex_modes (topState stk)) (c :: cs) with _ | ⟨skip, sym, len⟩
      · dsimp only
        rw [ih, stackText_cons]
        simp [treeText]
      · dsimp only
        by_cases hsym : sym = 0
        · rw [if_pos hsym]
          simp [finishStk_text]
        · rw [if_neg hsym]
          by_cases hlen : len = 0
          · rw [if_pos hlen]
            try dsimp only
            rw [ih, stackText_cons]
            simp [treeText]
          · rw [if_neg hlen]
            try dsimp only
            rcases happ : applyActs 50 stk sym ((c :: cs).take skip)
                (((c :: cs).drop skip).take len) with _ | stk2
            · dsimp only
              rw [ih, stackText_cons]
              simp only [treeText]
              rw [List.append_assoc]
              show stackText stk ++ (List.take skip (c :: cs) ++
                  List.take len (List.drop skip (c :: cs)) ++ List.drop (skip + len) (c :: cs)) =
                stackText stk ++ (c :: cs)
              rw [consume_append]
            · dsimp only
              rw [ih, applyActs_text 50 stk sym _ _ stk2 happ]
              rw [List.append_assoc]
              show stackText stk ++ (List.take skip (c :: cs) ++
                  List.take len (List.drop skip (c :: cs)) ++ List.drop (skip + len) (c :: cs)) =
                stackText stk ++ (c :: cs)
              rw [consume_append]

theorem parseLoop_steps (fuel : Nat) : ∀ (stk : List Frame) (rem : List Nat),
    (parseLoop fuel stk rem).steps ≤ rem.length + 1 := by
  induction fuel with
  | zero =>
    intro stk rem
    rw [parseLoop]
    simp
  | succ fuel ih =>
    intro stk rem
    rcases rem with _ | ⟨c, cs⟩
    · rw [parseLoop]
      simp
    · rw [parseLoop]
      rcases h : ts_lex (ts_lex_modes (topState stk)) (c :: cs) with _ | ⟨skip, sym, len⟩
      · dsimp only
        have := ih (Frame.mk (topState stk) (Tree.err [c]) :: stk) cs
        simp only [List.length_cons]
        omega
      · dsimp only
        by_cases hsym : sym = 0
        · rw [if_pos hsym]
          simp
        · rw [if_neg hsym]
          by_cases hlen : len = 0
          · rw [if_pos hlen]
            try dsimp only
            have := ih (Frame.mk (topState stk) (Tree.err [c]) :: stk) cs
            simp only [List.length_cons]
            omega
          · rw [if_neg hlen]
            try dsimp only
            have hl1 : 1 ≤ len := Nat.one_le_iff_ne_zero.mpr hlen
            rcases happ : applyActs 50 stk sym ((c :: cs).take skip)
                (((c :: cs).drop skip).take len) with _ | stk2
            · dsimp only
              have := ih (Frame.mk (topState stk)
                  (Tree.err ((c :: cs).take skip ++ ((c :: cs).drop skip).take len)) :: stk)
                  ((c :: cs).drop (skip + len))
              simp only [List.length_drop, List.length_cons] at this ⊢
              omega
            · dsimp only
              have := ih stk2 ((c :: cs).drop (skip + len))
              simp only [List.length_drop, List.length_cons] at this ⊢
              omega

/-- C8: the empty input parses to a document node with no children and no
error nodes. -/
theorem c8_empty_input :
    (parse []).root = Tree.node 33 [] ∧ hasErr (parse []).root = false :=
  ⟨rfl, rfl⟩

/-- C1 counterexample: on the spaced handlebars expression the parse
succeeds with no error node, yet the concatenation of the leaf token spans
drops the whitespace the tokenizer skipped, so it does not reconstruct the
input. -/
theorem c1_leaf_spans_counterexample :
    hasErr (parse exSpacedExpr).root = false ∧
      leafChars (parse exSpacedExpr).root ≠ exSpacedExpr := by
  refine ⟨rfl, ?_⟩
  decide

/-- C1 amended: for every input, the leaf tokens tile the input without
gap or overlap once the whitespace the tokenizer skipped in front of each
token (and after the last one) is put back: concatenating, in source
order, each leaf's skipped characters followed by its token characters,
then the trailing skipped characters, reconstructs the input exactly. -/
theorem c1_round_trip_with_skips (input : List Nat) :
    treeText (parse input).root ++ (parse input).trailing = input := by
  have h := parseLoop_text (input.length + 1) [] input
  simpa [parse, stackText, forestText] using h

theorem c1_round_trip_with_skips_witness :
    treeText (parse exSpacedExpr).root ++ (parse exSpacedExpr).trailing = exSpacedExpr :=
  c1_round_trip_with_skips exSpacedExpr

/-- C2: parse is a total function: for every input, binary garbage and the
empty sequence included, it returns a tree after at most one tokenizer
call per input character plus one, and malformed input yields a tree with
designated error nodes instead of a failure. -/
theorem c2_totality_and_bound :
    (∀ input : List Nat, (parse input).steps ≤ input.length + 1) ∧
      hasErr (parse exGarbage).root = true :=
  ⟨fun input => parseLoop_steps (input.length + 1) [] input, rfl⟩

theorem c2_totality_and_bound_witness :
    (parse exGarbage).steps ≤ exGarbage.length + 1 :=
  c2_totality_and_bound.1 exGarbage

/-- C5: the generated lexer contradicts the spec on dash-dash comments: in
the comment-body lexer state the scanner accepts every following character
including the closing dash-dash-brace-brace, so on the comment example the
body token swallows the closer, the closing token can never be produced,
and the parse of the full example needs error recovery instead of yielding
a clean single-comment tree. -/
theorem c5_dash_comment_swallows_closer :
    ts_lex 62 exDashCommentBody = some (0, 17, 10) ∧
      hasErr (parse exDashComment).root = true :=
  ⟨rfl, rfl⟩

/-- C4 counterexample: in the frontmatter lexer state a run of three
dashes followed by the letter x, not an end of line, is still tokenized as
a frontmatter delimiter of length three. -/
theorem c4_delimiter_midline_counterexample :
    ts_lex 4 [45, 45, 45, 120] = some (0, 3, 3) := rfl

/-- C4 amended: in the frontmatter lexer state a run of three dashes is
tokenized as a frontmatter delimiter of length three whatever follows it;
the generated lexer performs no end-of-line lookahead after the dashes. -/
theorem c4_delimiter_any_follower (rest : List Nat) :
    ts_lex 4 (45 :: 45 :: 45 :: rest) = some (0, 3, 3) := by
  cases rest <;> rfl

theorem c4_delimiter_any_follower_witness :
    ts_lex 4 (45 :: 45 :: 45 :: [10]) = some (0, 3, 3) :=
  c4_delimiter_any_follower [10]

theorem lexDelta_101 (c : Nat) :
    lexDelta 101 c = if c = 123 then some (LStep.adv 53) else none := rfl

theorem lexDelta_100 (c : Nat) :
    lexDelta 100 c = if c = 123 then some (LStep.adv 54) else none := rfl

/-- C7: in the template-text lexer states an open brace opens a handlebars
construct only when a second open brace follows: followed by any other
character, or by end of input, the brace is emitted as a text token. -/
theorem c7_lone_brace_is_text :
    (∀ c rest, c ≠ 123 → ts_lex 39 (123 :: c :: rest) = some (0, 32, 1)) ∧
    (∀ c rest, c ≠ 123 → ts_lex 5 (123 :: c :: rest) = some (0, 32, 1)) ∧
    ts_lex 39 [123] = some (0, 32, 1) ∧ ts_lex 5 [123] = some (0, 32, 1) := by
  refine ⟨fun c rest hc => ?_, fun c rest hc => ?_, rfl, rfl⟩
  · have h1 : ts_lex 39 (123 :: c :: rest) = lexGo 101 (c :: rest) 0 1 none := rfl
    rw [h1, lexGo, lexDelta_101, if_neg hc]
    rfl
  · have h1 : ts_lex 5 (123 :: c :: rest) = lexGo 100 (c :: rest) 0 1 none := rfl
    rw [h1, lexGo, lexDelta_100, if_neg hc]
    rfl

theorem c7_lone_brace_is_text_witness :
    ts_lex 39 (123 :: 97 :: []) = some (0, 32, 1) :=
  c7_lone_brace_is_text.1 97 [] (by decide)

theorem lexDelta_77 (c : Nat) :
    lexDelta 77 c = if isPathChar c then some (LStep.adv 77) else none := rfl

theorem lexDelta_57 (c : Nat) :
    lexDelta 57 c = if isPathChar c then some (LStep.adv 77) else none := rfl

theorem lexDelta_86 (c : Nat) :
    lexDelta 86 c = if isPathChar c then some (LStep.adv 77) else none := rfl

theorem lexDelta_87 (c : Nat) :
    lexDelta 87 c = if isPathChar c then some (LStep.adv 77) else none := rfl

/-- Once the scanner is in the path-continuation state it delivers a path
token, whatever acceptance was recorded before. -/
theorem lexGo_77 (rest : List Nat) : ∀ (skip cons : Nat) (best : Option (Nat × Nat)),
    ∃ l, cons ≤ l ∧ lexGo 77 rest skip cons best = some (skip, 21, l) := by
  induction rest with
  | nil => intro skip cons best; exact ⟨cons, le_rfl, rfl⟩
  | cons c cs ih =>
    intro skip cons best
    by_cases hc : isPathChar c
    · obtain ⟨l, hl, he⟩ := ih skip (cons + 1) (updBest 77 cons best)
      refine ⟨l, by omega, ?_⟩
      rw [lexGo, lexDelta_77, if_pos hc]
      exact he
    · exact ⟨cons, le_rfl, by rw [lexGo, lexDelta_77, if_neg hc]; rfl⟩

/-- C9: inside handlebars expressions the words true, false and else are
keyword tokens only when not followed by a path character; an identifier
merely starting with one of them lexes as one single path token.  The last
conjunct checks the tree: the expression containing the word truex
parses to a single path leaf between the brace tokens. -/
theorem c9_keywords_maximal_munch :
    (∀ c rest, isPathChar c →
      ∃ l, 5 ≤ l ∧ ts_lex 0 (116 :: 114 :: 117 :: 101 :: c :: rest) = some (0, 21, l)) ∧
    (∀ c rest, isPathChar c →
      ∃ l, 6 ≤ l ∧ ts_lex 0 (102 :: 97 :: 108 :: 115 :: 101 :: c :: rest) = some (0, 21, l)) ∧
    (∀ c rest, isPathChar c →
      ∃ l, 5 ≤ l ∧ ts_lex 0 (101 :: 108 :: 115 :: 101 :: c :: rest) = some (0, 21, l)) ∧
    (∀ c rest, ¬ isPathChar c →
      ts_lex 0 (116 :: 114 :: 117 :: 101 :: c :: rest) = some (0, 27, 4) ∧
      ts_lex 0 (102 :: 97 :: 108 :: 115 :: 101 :: c :: rest) = some (0, 28, 5) ∧
      ts_lex 0 (101 :: 108 :: 115 :: 101 :: c :: rest) = some (0, 13, 4)) ∧
    ts_lex 0 [116, 114, 117, 101] = some (0, 27, 4) ∧
    leaves (parse [123, 123, 116, 114, 117, 101, 120, 125, 125]).root =
      [(11, [123, 123]), (21, [116, 114, 117, 101, 120]), (9, [125, 125])] := by
  refine ⟨fun c rest hc => ?_, fun c rest hc => ?_, fun c rest hc => ?_,
    fun c rest hc => ⟨?_, ?_, ?_⟩, rfl, rfl⟩
  · have h1 : ts_lex 0 (116 :: 114 :: 117 :: 101 :: c :: rest) =
        lexGo 86 (c :: rest) 0 4 (some (21, 3)) := rfl
    rw [h1, lexGo, lexDelta_86, if_pos hc]
    obtain ⟨l, hl, he⟩ := lexGo_77 rest 0 5 (updBest 86 4 (some (21, 3)))
    exact ⟨l, hl, he⟩
  · have h1 : ts_lex 0 (102 :: 97 :: 108 :: 115 :: 101 :: c :: rest) =
        lexGo 87 (c :: rest) 0 5 (some (21, 4)) := rfl
    rw [h1, lexGo, lexDelta_87, if_pos hc]
    obtain ⟨l, hl, he⟩ := lexGo_77 rest 0 6 (updBest 87 5 (some (21, 4)))
    exact ⟨l, hl, he⟩
  · have h1 : ts_lex 0 (101 :: 108 :: 115 :: 101 :: c :: rest) =
        lexGo 57 (c :: rest) 0 4 (some (21, 3)) := rfl
    rw [h1, lexGo, lexDelta_57, if_pos hc]
    obtain ⟨l, hl, he⟩ := lexGo_77 rest 0 5 (updBest 57 4 (some (21, 3)))
    exact ⟨l, hl, he⟩
  · have h1 : ts_lex 0 (116 :: 114 :: 117 :: 101 :: c :: rest) =
        lexGo 86 (c :: rest) 0 4 (some (21, 3)) := rfl
    rw [h1, lexGo, lexDelta_86, if_neg hc]
    rfl
  · have h1 : ts_lex 0 (102 :: 97 :: 108 :: 115 :: 101 :: c :: rest) =
        lexGo 87 (c :: rest) 0 5 (some (21, 4)) := rfl
    rw [h1, lexGo, lexDelta_87, if_neg hc]
    rfl
  · have h1 : ts_lex 0 (101 :: 108 :: 115 :: 101 :: c :: rest) =
        lexGo 57 (c :: rest) 0 4 (some (21, 3)) := rfl
    rw [h1, lexGo, lexDelta_57, if_neg hc]
    rfl

theorem c9_keywords_maximal_munch_witness :
    ∃ l, 5 ≤ l ∧ ts_lex 0 (116 :: 114 :: 117 :: 101 :: 120 :: []) = some (0, 21, l) :=
  c9_keywords_maximal_munch.1 120 [] (by decide)

/-- Per-state transition rows of the lexer DFA, restated as equations for
rewriting (each is definitional). -/
theorem lexDelta_at_0 (c : Nat) : lexDelta 0 c = if c = 34 then some (LStep.adv 78) else if c = 35 then some (LStep.adv 41) else if c = 39 then some (LStep.adv 81) else if c = 45 then some (LStep.adv 6) else if c = 58 then some (LStep.adv 47) else if c = 60 then some (LStep.adv 13) else if c = 61 then some (LStep.adv 65) else if c = 62 then some (LStep.adv 56) else if c = 64 then some (LStep.adv 33) else if c = 101 then some (LStep.adv 71) else if c = 102 then some (LStep.adv 67) else if c = 116 then some (LStep.adv 73) else if c = 123 then some (LStep.adv 26) else if c = 125 then some (LStep.adv 27) else if (9 ≤ c ∧ c ≤ 13) ∨ c = 32 then some (LStep.skp 0) else if (48 ≤ c ∧ c ≤ 57) then some (LStep.adv 84) else if (65 ≤ c ∧ c ≤ 90) ∨ c = 95 ∨ (97 ≤ c ∧ c ≤ 122) then some (LStep.adv 77) else none := rfl

theorem lexDelta_at_1 (c : Nat) : lexDelta 1 c = if c = 10 then some (LStep.adv 42) else if c = 13 then some (LStep.adv 48) else if (9 ≤ c ∧ c ≤ 12) ∨ c = 32 then some (LStep.adv 48) else if c ≠ 0 then some (LStep.adv 49) else none := rfl

theorem lexDelta_at_2 (c : Nat) : lexDelta 2 c = if c = 10 then some (LStep.adv 43) else if c = 13 then some (LStep.adv 2) else if (9 ≤ c ∧ c ≤ 12) ∨ c = 32 then some (LStep.skp 2) else none := rfl

theorem lexDelta_at_3 (c : Nat) : lexDelta 3 c = if c = 34 then some (LStep.adv 78) else if c = 39 then some (LStep.adv 81) else if c = 45 then some (LStep.adv 31) else if c = 61 then some (LStep.adv 65) else if c = 62 then some (LStep.adv 14) else if c = 64 then some (LStep.adv 33) else if c = 102 then some (LStep.adv 67) else if c = 116 then some (LStep.adv 73) else if c = 125 then some (LStep.adv 27) else if (9 ≤ c ∧ c ≤ 13) ∨ c = 32 then some (LStep.skp 3) else if (48 ≤ c ∧ c ≤ 57) then some (LStep.adv 84) else if (65 ≤ c ∧ c ≤ 90) ∨ c = 95 ∨ (97 ≤ c ∧ c ≤ 122) then some (LStep.adv 77) else none := rfl

theorem lexDelta_at_4 (c : Nat) : lexDelta 4 c = if c = 35 then some (LStep.adv 41) else if c = 45 then some (LStep.adv 10) else if (9 ≤ c ∧ c ≤ 13) ∨ c = 32 then some (LStep.adv 45) else if (65 ≤ c ∧ c ≤ 90) ∨ c = 95 ∨ (97 ≤ c ∧ c ≤ 122) then some (LStep.adv 46) else none := rfl

theorem lexDelta_at_5 (c : Nat) : lexDelta 5 c = if c = 35 then some (LStep.adv 92) else if c = 60 then some (LStep.adv 99) else if c = 123 then some (LStep.adv 100) else if (9 ≤ c ∧ c ≤ 13) ∨ c = 32 then some (LStep.adv 96) else if c ≠ 0 then some (LStep.adv 102) else none := rfl

theorem lexDelta_at_6 (c : Nat) : lexDelta 6 c = if c = 45 then some (LStep.adv 8) else if (48 ≤ c ∧ c ≤ 57) then some (LStep.adv 84) else none := rfl

theorem lexDelta_at_7 (c : Nat) : lexDelta 7 c = if c = 45 then some (LStep.adv 44) else none := rfl

theorem lexDelta_at_8 (c : Nat) : lexDelta 8 c = if c = 45 then some (LStep.adv 44) else if c = 125 then some (LStep.adv 28) else none := rfl

theorem lexDelta_at_9 (c : Nat) : lexDelta 9 c = if c = 45 then some (LStep.adv 61) else none := rfl

theorem lexDelta_at_10 (c : Nat) : lexDelta 10 c = if c = 45 then some (LStep.adv 7) else none := rfl

theorem lexDelta_at_11 (c : Nat) : lexDelta 11 c = if c = 58 then some (LStep.adv 88) else none := rfl

theorem lexDelta_at_12 (c : Nat) : lexDelta 12 c = if c = 60 then some (LStep.adv 17) else none := rfl

theorem lexDelta_at_13 (c : Nat) : lexDelta 13 c = if c = 60 then some (LStep.adv 12) else none := rfl

theorem lexDelta_at_14 (c : Nat) : lexDelta 14 c = if c = 62 then some (LStep.adv 15) else none := rfl

theorem lexDelta_at_15 (c : Nat) : lexDelta 15 c = if c = 62 then some (LStep.adv 91) else none := rfl

theorem lexDelta_at_16 (c : Nat) : lexDelta 16 c = if c = 62 then some (LStep.adv 55) else if c = 64 then some (LStep.adv 33) else if c = 101 then some (LStep.adv 71) else if (9 ≤ c ∧ c ≤ 13) ∨ c = 32 then some (LStep.skp 16) else if (65 ≤ c ∧ c ≤ 90) ∨ c = 95 ∨ (97 ≤ c ∧ c ≤ 122) then some (LStep.adv 77) else none := rfl

theorem lexDelta_at_17 (c : Nat) : lexDelta 17 c = if c = 100 then some (LStep.adv 19) else none := rfl

theorem lexDelta_at_18 (c : Nat) : lexDelta 18 c = if c = 109 then some (LStep.adv 22) else none := rfl

theorem lexDelta_at_19 (c : Nat) : lexDelta 19 c = if c = 111 then some (LStep.adv 24) else none := rfl

theorem lexDelta_at_20 (c : Nat) : lexDelta 20 c = if c = 111 then some (LStep.adv 18) else none := rfl

theorem lexDelta_at_21 (c : Nat) : lexDelta 21 c = if c = 112 then some (LStep.adv 23) else none := rfl

theorem lexDelta_at_22 (c : Nat) : lexDelta 22 c = if c = 112 then some (LStep.adv 25) else none := rfl

theorem lexDelta_at_23 (c : Nat) : lexDelta 23 c = if c = 114 then some (LStep.adv 20) else none := rfl

theorem lexDelta_at_24 (c : Nat) : lexDelta 24 c = if c = 116 then some (LStep.adv 21) else none := rfl

theorem lexDelta_at_25 (c : Nat) : lexDelta 25 c = if c = 116 then some (LStep.adv 11) else none := rfl

theorem lexDelta_at_26 (c : Nat) : lexDelta 26 c = if c = 123 then some (LStep.adv 54) else none := rfl

theorem lexDelta_at_27 (c : Nat) : lexDelta 27 c = if c = 125 then some (LStep.adv 51) else none := rfl

theorem lexDelta_at_28 (c : Nat) : lexDelta 28 c = if c = 125 then some (LStep.adv 64) else none := rfl

theorem lexDelta_at_29 (c : Nat) : lexDelta 29 c = if (9 ≤ c ∧ c ≤ 13) ∨ c = 32 then some (LStep.skp 29) else if (65 ≤ c ∧ c ≤ 90) ∨ c = 95 ∨ (97 ≤ c ∧ c ≤ 122) then some (LStep.adv 77) else none := rfl

theorem lexDelta_at_30 (c : Nat) : lexDelta 30 c = if (9 ≤ c ∧ c ≤ 13) ∨ c = 32 then some (LStep.adv 89) else if c ≠ 0 ∧ c ≠ 62 then some (LStep.adv 90) else none := rfl

theorem lexDelta_at_31 (c : Nat) : lexDelta 31 c = if (48 ≤ c ∧ c ≤ 57) then some (LStep.adv 84) else none := rfl

theorem lexDelta_at_32 (c : Nat) : lexDelta 32 c = if (48 ≤ c ∧ c ≤ 57) then some (LStep.adv 85) else none := rfl

theorem lexDelta_at_33 (c : Nat) : lexDelta 33 c = if (65 ≤ c ∧ c ≤ 90) ∨ c = 95 ∨ (97 ≤ c ∧ c ≤ 122) then some (LStep.adv 66) else none := rfl

theorem lexDelta_at_34 (c : Nat) : lexDelta 34 c = if c ≠ 0 ∧ c ≠ 10 then some (LStep.adv 83) else none := rfl

theorem lexDelta_at_35 (c : Nat) : lexDelta 35 c = if c ≠ 0 ∧ c ≠ 10 then some (LStep.adv 80) else none := rfl

theorem lexDelta_at_36 (c : Nat) : lexDelta 36 c = if c ≠ 0 ∧ c ≠ 125 then some (LStep.adv 60) else none := rfl

theorem lexDelta_at_37 (c : Nat) : lexDelta 37 c = if c = 35 then some (LStep.adv 41) else if c = 45 then some (LStep.adv 98) else if c = 60 then some (LStep.adv 99) else if c = 123 then some (LStep.adv 101) else if (9 ≤ c ∧ c ≤ 13) ∨ c = 32 then some (LStep.adv 93) else if c ≠ 0 then some (LStep.adv 102) else none := rfl

theorem lexDelta_at_38 (c : Nat) : lexDelta 38 c = if c = 35 then some (LStep.adv 92) else if c = 45 then some (LStep.adv 98) else if c = 60 then some (LStep.adv 99) else if c = 123 then some (LStep.adv 101) else if (9 ≤ c ∧ c ≤ 13) ∨ c = 32 then some (LStep.adv 94) else if c ≠ 0 then some (LStep.adv 102) else none := rfl

theorem lexDelta_at_39 (c : Nat) : lexDelta 39 c = if c = 35 then some (LStep.adv 92) else if c = 60 then some (LStep.adv 99) else if c = 123 then some (LStep.adv 101) else if (9 ≤ c ∧ c ≤ 13) ∨ c = 32 then some (LStep.adv 95) else if c ≠ 0 then some (LStep.adv 102) else none := rfl

theorem lexDelta_at_40 (c : Nat) : lexDelta 40 c = none := rfl

theorem lexDelta_at_41 (c : Nat) : lexDelta 41 c = if c ≠ 0 ∧ c ≠ 10 then some (LStep.adv 41) else none := rfl

theorem lexDelta_at_42 (c : Nat) : lexDelta 42 c = if c = 10 then some (LStep.adv 42) else if c = 13 then some (LStep.adv 48) else if (9 ≤ c ∧ c ≤ 12) ∨ c = 32 then some (LStep.adv 48) else none := rfl

theorem lexDelta_at_43 (c : Nat) : lexDelta 43 c = if c = 10 then some (LStep.adv 43) else if c = 13 then some (LStep.adv 2) else none := rfl

theorem lexDelta_at_44 (c : Nat) : lexDelta 44 c = none := rfl

theorem lexDelta_at_45 (c : Nat) : lexDelta 45 c = if c = 45 then some (LStep.adv 10) else if (9 ≤ c ∧ c ≤ 13) ∨ c = 32 then some (LStep.adv 45) else none := rfl

theorem lexDelta_at_46 (c : Nat) : lexDelta 46 c = if c = 45 ∨ (48 ≤ c ∧ c ≤ 57) ∨ (65 ≤ c ∧ c ≤ 90) ∨ c = 95 ∨ (97 ≤ c ∧ c ≤ 122) then some (LStep.adv 46) else none := rfl

theorem lexDelta_at_47 (c : Nat) : lexDelta 47 c = none := rfl

theorem lexDelta_at_48 (c : Nat) : lexDelta 48 c = if c = 10 then some (LStep.adv 42) else if c = 13 then some (LStep.adv 48) else if (9 ≤ c ∧ c ≤ 12) ∨ c = 32 then some (LStep.adv 48) else if c ≠ 0 then some (LStep.adv 49) else none := rfl

theorem lexDelta_at_49 (c : Nat) : lexDelta 49 c = if c ≠ 0 ∧ c ≠ 10 then some (LStep.adv 49) else none := rfl

theorem lexDelta_at_50 (c : Nat) : lexDelta 50 c = none := rfl

theorem lexDelta_at_51 (c : Nat) : lexDelta 51 c = none := rfl

theorem lexDelta_at_52 (c : Nat) : lexDelta 52 c = none := rfl

theorem lexDelta_at_53 (c : Nat) : lexDelta 53 c = if c = 33 then some (LStep.adv 58) else if c = 35 then some (LStep.adv 50) else none := rfl

theorem lexDelta_at_54 (c : Nat) : lexDelta 54 c = if c = 33 then some (LStep.adv 58) else if c = 35 then some (LStep.adv 50) else if c = 47 then some (LStep.adv 52) else none := rfl

theorem lexDelta_at_55 (c : Nat) : lexDelta 55 c = none := rfl

theorem lexDelta_at_56 (c : Nat) : lexDelta 56 c = if c = 62 then some (LStep.adv 15) else none := rfl

theorem lexDelta_at_57 (c : Nat) : lexDelta 57 c = if c = 46 ∨ (48 ≤ c ∧ c ≤ 57) ∨ (65 ≤ c ∧ c ≤ 90) ∨ c = 95 ∨ (97 ≤ c ∧ c ≤ 122) then some (LStep.adv 77) else none := rfl

theorem lexDelta_at_58 (c : Nat) : lexDelta 58 c = if c = 45 then some (LStep.adv 9) else none := rfl

theorem lexDelta_at_59 (c : Nat) : lexDelta 59 c = if c = 125 then some (LStep.adv 36) else if (9 ≤ c ∧ c ≤ 13) ∨ c = 32 then some (LStep.adv 59) else if c ≠ 0 then some (LStep.adv 60) else none := rfl

theorem lexDelta_at_60 (c : Nat) : lexDelta 60 c = if c = 125 then some (LStep.adv 36) else if c ≠ 0 then some (LStep.adv 60) else none := rfl

theorem lexDelta_at_61 (c : Nat) : lexDelta 61 c = none := rfl

theorem lexDelta_at_62 (c : Nat) : lexDelta 62 c = if c = 45 then some (LStep.adv 63) else if (9 ≤ c ∧ c ≤ 13) ∨ c = 32 then some (LStep.adv 62) else if c ≠ 0 then some (LStep.adv 63) else none := rfl

theorem lexDelta_at_63 (c : Nat) : lexDelta 63 c = if c = 45 then some (LStep.adv 63) else if c ≠ 0 then some (LStep.adv 63) else none := rfl

theorem lexDelta_at_64 (c : Nat) : lexDelta 64 c = none := rfl

theorem lexDelta_at_65 (c : Nat) : lexDelta 65 c = none := rfl

theorem lexDelta_at_66 (c : Nat) : lexDelta 66 c = if (48 ≤ c ∧ c ≤ 57) ∨ (65 ≤ c ∧ c ≤ 90) ∨ c = 95 ∨ (97 ≤ c ∧ c ≤ 122) then some (LStep.adv 66) else none := rfl

theorem lexDelta_at_67 (c : Nat) : lexDelta 67 c = if c = 97 then some (LStep.adv 72) else if c = 46 ∨ (48 ≤ c ∧ c ≤ 57) ∨ (65 ≤ c ∧ c ≤ 90) ∨ c = 95 ∨ (98 ≤ c ∧ c ≤ 122) then some (LStep.adv 77) else none := rfl

theorem lexDelta_at_68 (c : Nat) : lexDelta 68 c = if c = 101 then some (LStep.adv 57) else if c = 46 ∨ (48 ≤ c ∧ c ≤ 57) ∨ (65 ≤ c ∧ c ≤ 90) ∨ c = 95 ∨ (97 ≤ c ∧ c ≤ 122) then some (LStep.adv 77) else none := rfl

theorem lexDelta_at_69 (c : Nat) : lexDelta 69 c = if c = 101 then some (LStep.adv 86) else if c = 46 ∨ (48 ≤ c ∧ c ≤ 57) ∨ (65 ≤ c ∧ c ≤ 90) ∨ c = 95 ∨ (97 ≤ c ∧ c ≤ 122) then some (LStep.adv 77) else none := rfl

theorem lexDelta_at_70 (c : Nat) : lexDelta 70 c = if c = 101 then some (LStep.adv 87) else if c = 46 ∨ (48 ≤ c ∧ c ≤ 57) ∨ (65 ≤ c ∧ c ≤ 90) ∨ c = 95 ∨ (97 ≤ c ∧ c ≤ 122) then some (LStep.adv 77) else none := rfl

theorem lexDelta_at_71 (c : Nat) : lexDelta 71 c = if c = 108 then some (LStep.adv 74) else if c = 46 ∨ (48 ≤ c ∧ c ≤ 57) ∨ (65 ≤ c ∧ c ≤ 90) ∨ c = 95 ∨ (97 ≤ c ∧ c ≤ 122) then some (LStep.adv 77) else none := rfl

theorem lexDelta_at_72 (c : Nat) : lexDelta 72 c = if c = 108 then some (LStep.adv 75) else if c = 46 ∨ (48 ≤ c ∧ c ≤ 57) ∨ (65 ≤ c ∧ c ≤ 90) ∨ c = 95 ∨ (97 ≤ c ∧ c ≤ 122) then some (LStep.adv 77) else none := rfl

theorem lexDelta_at_73 (c : Nat) : lexDelta 73 c = if c = 114 then some (LStep.adv 76) else if c = 46 ∨ (48 ≤ c ∧ c ≤ 57) ∨ (65 ≤ c ∧ c ≤ 90) ∨ c = 95 ∨ (97 ≤ c ∧ c ≤ 122) then some (LStep.adv 77) else none := rfl

theorem lexDelta_at_74 (c : Nat) : lexDelta 74 c = if c = 115 then some (LStep.adv 68) else if c = 46 ∨ (48 ≤ c ∧ c ≤ 57) ∨ (65 ≤ c ∧ c ≤ 90) ∨ c = 95 ∨ (97 ≤ c ∧ c ≤ 122) then some (LStep.adv 77) else none := rfl

theorem lexDelta_at_75 (c : Nat) : lexDelta 75 c = if c = 115 then some (LStep.adv 70) else if c = 46 ∨ (48 ≤ c ∧ c ≤ 57) ∨ (65 ≤ c ∧ c ≤ 90) ∨ c = 95 ∨ (97 ≤ c ∧ c ≤ 122) then some (LStep.adv 77) else none := rfl

theorem lexDelta_at_76 (c : Nat) : lexDelta 76 c = if c = 117 then some (LStep.adv 69) else if c = 46 ∨ (48 ≤ c ∧ c ≤ 57) ∨ (65 ≤ c ∧ c ≤ 90) ∨ c = 95 ∨ (97 ≤ c ∧ c ≤ 122) then some (LStep.adv 77) else none := rfl

theorem lexDelta_at_77 (c : Nat) : lexDelta 77 c = if c = 46 ∨ (48 ≤ c ∧ c ≤ 57) ∨ (65 ≤ c ∧ c ≤ 90) ∨ c = 95 ∨ (97 ≤ c ∧ c ≤ 122) then some (LStep.adv 77) else none := rfl

theorem lexDelta_at_78 (c : Nat) : lexDelta 78 c = none := rfl

theorem lexDelta_at_79 (c : Nat) : lexDelta 79 c = if c = 92 then some (LStep.adv 35) else if (9 ≤ c ∧ c ≤ 13) ∨ c = 32 then some (LStep.adv 79) else if c ≠ 0 ∧ c ≠ 34 then some (LStep.adv 80) else none := rfl

theorem lexDelta_at_80 (c : Nat) : lexDelta 80 c = if c = 92 then some (LStep.adv 35) else if c ≠ 0 ∧ c ≠ 34 then some (LStep.adv 80) else none := rfl

theorem lexDelta_at_81 (c : Nat) : lexDelta 81 c = none := rfl

theorem lexDelta_at_82 (c : Nat) : lexDelta 82 c = if c = 92 then some (LStep.adv 34) else if (9 ≤ c ∧ c ≤ 13) ∨ c = 32 then some (LStep.adv 82) else if c ≠ 0 ∧ c ≠ 39 then some (LStep.adv 83) else none := rfl

theorem lexDelta_at_83 (c : Nat) : lexDelta 83 c = if c = 92 then some (LStep.adv 34) else if c ≠ 0 ∧ c ≠ 39 then some (LStep.adv 83) else none := rfl

theorem lexDelta_at_84 (c : Nat) : lexDelta 84 c = if c = 46 then some (LStep.adv 32) else if (48 ≤ c ∧ c ≤ 57) then some (LStep.adv 84) else none := rfl

theorem lexDelta_at_85 (c : Nat) : lexDelta 85 c = if (48 ≤ c ∧ c ≤ 57) then some (LStep.adv 85) else none := rfl

theorem lexDelta_at_86 (c : Nat) : lexDelta 86 c = if c = 46 ∨ (48 ≤ c ∧ c ≤ 57) ∨ (65 ≤ c ∧ c ≤ 90) ∨ c = 95 ∨ (97 ≤ c ∧ c ≤ 122) then some (LStep.adv 77) else none := rfl

theorem lexDelta_at_87 (c : Nat) : lexDelta 87 c = if c = 46 ∨ (48 ≤ c ∧ c ≤ 57) ∨ (65 ≤ c ∧ c ≤ 90) ∨ c = 95 ∨ (97 ≤ c ∧ c ≤ 122) then some (LStep.adv 77) else none := rfl

theorem lexDelta_at_88 (c : Nat) : lexDelta 88 c = none := rfl

theorem lexDelta_at_89 (c : Nat) : lexDelta 89 c = if (9 ≤ c ∧ c ≤ 13) ∨ c = 32 then some (LStep.adv 89) else if c ≠ 0 ∧ c ≠ 62 then some (LStep.adv 90) else none := rfl

theorem lexDelta_at_90 (c : Nat) : lexDelta 90 c = if c ≠ 0 ∧ c ≠ 62 then some (LStep.adv 90) else none := rfl

theorem lexDelta_at_91 (c : Nat) : lexDelta 91 c = none := rfl

theorem lexDelta_at_92 (c : Nat) : lexDelta 92 c = none := rfl

theorem lexDelta_at_93 (c : Nat) : lexDelta 93 c = if c = 35 then some (LStep.adv 41) else if c = 45 then some (LStep.adv 98) else if c = 60 then some (LStep.adv 99) else if c = 123 then some (LStep.adv 101) else if (9 ≤ c ∧ c ≤ 13) ∨ c = 32 then some (LStep.adv 93) else if c ≠ 0 then some (LStep.adv 102) else none := rfl

theorem lexDelta_at_94 (c : Nat) : lexDelta 94 c = if c = 35 then some (LStep.adv 92) else if c = 45 then some (LStep.adv 98) else if c = 60 then some (LStep.adv 99) else if c = 123 then some (LStep.adv 101) else if (9 ≤ c ∧ c ≤ 13) ∨ c = 32 then some (LStep.adv 94) else if c ≠ 0 then some (LStep.adv 102) else none := rfl

theorem lexDelta_at_95 (c : Nat) : lexDelta 95 c = if c = 35 then some (LStep.adv 92) else if c = 60 then some (LStep.adv 99) else if c = 123 then some (LStep.adv 101) else if (9 ≤ c ∧ c ≤ 13) ∨ c = 32 then some (LStep.adv 95) else if c ≠ 0 then some (LStep.adv 102) else none := rfl

theorem lexDelta_at_96 (c : Nat) : lexDelta 96 c = if c = 35 then some (LStep.adv 92) else if c = 60 then some (LStep.adv 99) else if c = 123 then some (LStep.adv 100) else if (9 ≤ c ∧ c ≤ 13) ∨ c = 32 then some (LStep.adv 96) else if c ≠ 0 then some (LStep.adv 102) else none := rfl

theorem lexDelta_at_97 (c : Nat) : lexDelta 97 c = if c = 45 then some (LStep.adv 44) else if c ≠ 0 ∧ c ≠ 35 ∧ c ≠ 60 ∧ c ≠ 123 then some (LStep.adv 102) else none := rfl

theorem lexDelta_at_98 (c : Nat) : lexDelta 98 c = if c = 45 then some (LStep.adv 97) else if c ≠ 0 ∧ c ≠ 35 ∧ c ≠ 60 ∧ c ≠ 123 then some (LStep.adv 102) else none := rfl

theorem lexDelta_at_99 (c : Nat) : lexDelta 99 c = if c = 60 then some (LStep.adv 12) else none := rfl

theorem lexDelta_at_100 (c : Nat) : lexDelta 100 c = if c = 123 then some (LStep.adv 54) else none := rfl

theorem lexDelta_at_101 (c : Nat) : lexDelta 101 c = if c = 123 then some (LStep.adv 53) else none := rfl

theorem lexDelta_at_102 (c : Nat) : lexDelta 102 c = if c ≠ 0 ∧ c ≠ 35 ∧ c ≠ 60 ∧ c ≠ 123 then some (LStep.adv 102) else none := rfl

theorem chain_acc : ∀ st ∈ chainList, acceptSym st ≠ some 32 := by decide

theorem chain_eof : ∀ st ∈ chainList, eofDelta st = none := by decide

theorem chain_step : ∀ st ∈ chainList, ∀ c r, lexDelta st c = some r →
    ∃ st2, r = LStep.adv st2 ∧ st2 ∈ chainList := by
  intro st hst c r h
  fin_cases hst
  · rw [lexDelta_at_12] at h
    split at h
    · exact ⟨17, by simp_all, by decide⟩
    · cases h
  · rw [lexDelta_at_17] at h
    split at h
    · exact ⟨19, by simp_all, by decide⟩
    · cases h
  · rw [lexDelta_at_19] at h
    split at h
    · exact ⟨24, by simp_all, by decide⟩
    · cases h
  · rw [lexDelta_at_24] at h
    split at h
    · exact ⟨21, by simp_all, by decide⟩
    · cases h
  · rw [lexDelta_at_21] at h
    split at h
    · exact ⟨23, by simp_all, by decide⟩
    · cases h
  · rw [lexDelta_at_23] at h
    split at h
    · exact ⟨20, by simp_all, by decide⟩
    · cases h
  · rw [lexDelta_at_20] at h
    split at h
    · exact ⟨18, by simp_all, by decide⟩
    · cases h
  · rw [lexDelta_at_18] at h
    split at h
    · exact ⟨22, by simp_all, by decide⟩
    · cases h
  · rw [lexDelta_at_22] at h
    split at h
    · exact ⟨25, by simp_all, by decide⟩
    · cases h
  · rw [lexDelta_at_25] at h
    split at h
    · exact ⟨11, by simp_all, by decide⟩
    · cases h
  · rw [lexDelta_at_11] at h
    split at h
    · exact ⟨88, by simp_all, by decide⟩
    · cases h
  · rw [lexDelta_at_53] at h
    split at h
    · exact ⟨58, by simp_all, by decide⟩
    · split at h
      · exact ⟨50, by simp_all, by decide⟩
      · cases h
  · rw [lexDelta_at_58] at h
    split at h
    · exact ⟨9, by simp_all, by decide⟩
    · cases h
  · rw [lexDelta_at_9] at h
    split at h
    · exact ⟨61, by simp_all, by decide⟩
    · cases h
  · rw [lexDelta_at_50] at h
    cases h
  · rw [lexDelta_at_61] at h
    cases h
  · rw [lexDelta_at_88] at h
    cases h

theorem updBest_notText (st cons : Nat) (best : Option (Nat × Nat)) (l : Nat)
    (h32 : acceptSym st ≠ some 32) (h : updBest st cons best = some (32, l)) :
    best = some (32, l) := by
  unfold updBest at h
  rcases ha : acceptSym st with _ | s0 <;> rw [ha] at h
  · exact h
  · simp only [Option.some.injEq, Prod.mk.injEq] at h
    exact absurd (ha.trans (by rw [h.1])) h32

/-- Inside a partial-match chain the recorded acceptance is frozen: if the
token finally delivered is a text token, it is exactly the acceptance that
was recorded before entering the chain. -/
theorem lexGo_chain (cs : List Nat) : ∀ st ∈ chainList, ∀ (skip cons : Nat)
    (best : Option (Nat × Nat)) (sk l : Nat),
    lexGo st cs skip cons best = some (sk, 32, l) → best = some (32, l) := by
  induction cs with
  | nil =>
    intro st hst skip cons best sk l h
    rw [lexGo, chain_eof st hst] at h
    exact updBest_notText st cons best l (chain_acc st hst) (emitTok_len _ _ _ h)
  | cons c cs2 ih =>
    intro st hst skip cons best sk l h
    rw [lexGo] at h
    rcases hd : lexDelta st c with _ | r <;> rw [hd] at h
    · exact updBest_notText st cons best l (chain_acc st hst) (emitTok_len _ _ _ h)
    · obtain ⟨st2, rfl, hst2⟩ := chain_step st hst c r hd
      exact updBest_notText st cons best l (chain_acc st hst)
        (ih st2 hst2 skip (cons + 1) (updBest st cons best) sk l h)

/-- After the hash transition of a text mode the scanner stops at once:
the token is text ending right after the hash. -/
theorem lexGo_92 (cs : List Nat) (skip cons : Nat) (best : Option (Nat × Nat)) :
    lexGo 92 cs skip cons best = some (skip, 32, cons) := by
  cases cs <;> rfl

theorem updBest_99 (cons : Nat) (best : Option (Nat × Nat)) :
    updBest 99 cons best = some (32, cons) := rfl

theorem updBest_101 (cons : Nat) (best : Option (Nat × Nat)) :
    updBest 101 cons best = some (32, cons) := rfl

/-- In the less-than opener state a text result keeps the length recorded
on entry: the following chain can only freeze or replace the token. -/
theorem lexGo_99 (cs : List Nat) (skip cons : Nat) (best : Option (Nat × Nat))
    (sk l : Nat) (h : lexGo 99 cs skip cons best = some (sk, 32, l)) : l = cons := by
  rcases cs with _ | ⟨c, cs2⟩
  · rw [lexGo] at h
    have h2 := emitTok_len _ _ _ h
    rw [updBest_99] at h2
    simp only [Option.some.injEq, Prod.mk.injEq] at h2
    omega
  · rw [lexGo, lexDelta_at_99] at h
    by_cases hc : c = 60
    · rw [if_pos hc] at h
      have h2 := lexGo_chain cs2 12 (by decide) skip (cons + 1) (updBest 99 cons best) sk l h
      rw [updBest_99] at h2
      simp only [Option.some.injEq, Prod.mk.injEq] at h2
      omega
    · rw [if_neg hc] at h
      have h2 := emitTok_len skip (updBest 99 cons best) (sk, 32, l) h
      rw [updBest_99] at h2
      simp only [Option.some.injEq, Prod.mk.injEq] at h2
      omega

/-- Same for the open-brace opener state of the body mode. -/
theorem lexGo_101txt (cs : List Nat) (skip cons : Nat) (best : Option (Nat × Nat))
    (sk l : Nat) (h : lexGo 101 cs skip cons best = some (sk, 32, l)) : l = cons := by
  rcases cs with _ | ⟨c, cs2⟩
  · rw [lexGo] at h
    have h2 := emitTok_len _ _ _ h
    rw [updBest_101] at h2
    simp only [Option.some.injEq, Prod.mk.injEq] at h2
    omega
  · rw [lexGo, lexDelta_at_101] at h
    by_cases hc : c = 123
    · rw [if_pos hc] at h
      have h2 := lexGo_chain cs2 53 (by decide) skip (cons + 1) (updBest 101 cons best) sk l h
      rw [updBest_101] at h2
      simp only [Option.some.injEq, Prod.mk.injEq] at h2
      omega
    · rw [if_neg hc] at h
      have h2 := emitTok_len skip (updBest 101 cons best) (sk, 32, l) h
      rw [updBest_101] at h2
      simp only [Option.some.injEq, Prod.mk.injEq] at h2
      omega

/-- In the text-scanning states of the template-body mode a text token
contains the hash character at most as its final character. -/
theorem lexGo_text (cs : List Nat) : ∀ st, (st = 95 ∨ st = 102) →
    ∀ (skip cons : Nat) (best : Option (Nat × Nat)) (sk l : Nat),
    lexGo st cs skip cons best = some (sk, 32, l) →
    cons ≤ l ∧ ∀ i, i + 1 + cons < l → cs[i]? ≠ some 35 := by
  induction cs with
  | nil =>
    intro st hst skip cons best sk l h
    have hco : cons = l := by
      rcases hst with rfl | rfl
      · rw [lexGo] at h
        have h2 := emitTok_len skip (updBest 95 cons best) (sk, 32, l) h
        rw [show updBest 95 cons best = some (32, cons) from rfl] at h2
        simp only [Option.some.injEq, Prod.mk.injEq] at h2
        omega
      · rw [lexGo] at h
        have h2 := emitTok_len skip (updBest 102 cons best) (sk, 32, l) h
        rw [show updBest 102 cons best = some (32, cons) from rfl] at h2
        simp only [Option.some.injEq, Prod.mk.injEq] at h2
        omega
    exact ⟨le_of_eq hco, fun i hi => absurd hi (by omega)⟩
  | cons c cs2 ih =>
    intro st hst skip cons best sk l h
    rcases hst with rfl | rfl
    · rw [lexGo, lexDelta_at_95] at h
      by_cases h35 : c = 35
      · rw [if_pos h35] at h
        have h2 : some (skip, 32, cons + 1) = some (sk, 32, l) :=
          (lexGo_92 cs2 skip (cons + 1) (updBest 95 cons best)).symm.trans h
        simp only [Option.some.injEq, Prod.mk.injEq] at h2
        exact ⟨by omega, fun i hi => absurd hi (by omega)⟩
      · rw [if_neg h35] at h
        by_cases h60 : c = 60
        · rw [if_pos h60] at h
          have hl := lexGo_99 cs2 skip (cons + 1) (updBest 95 cons best) sk l h
          exact ⟨by omega, fun i hi => absurd hi (by omega)⟩
        · rw [if_neg h60] at h
          by_cases h123 : c = 123
          · rw [if_pos h123] at h
            have hl := lexGo_101txt cs2 skip (cons + 1) (updBest 95 cons best) sk l h
            exact ⟨by omega, fun i hi => absurd hi (by omega)⟩
          · rw [if_neg h123] at h
            by_cases hws : (9 ≤ c ∧ c ≤ 13) ∨ c = 32
            · rw [if_pos hws] at h
              obtain ⟨hle, hni⟩ :=
                ih 95 (Or.inl rfl) skip (cons + 1) (updBest 95 cons best) sk l h
              refine ⟨by omega, ?_⟩
              intro i hi
              rcases i with _ | j
              · simp only [List.getElem?_cons_zero]
                intro hcc
                simp only [Option.some.injEq] at hcc
                rcases hws with ⟨hw1, hw2⟩ | hw1 <;> omega
              · simp only [List.getElem?_cons_succ]
                exact hni j (by omega)
            · rw [if_neg hws] at h
              by_cases h0 : c ≠ 0
              · rw [if_pos h0] at h
                obtain ⟨hle, hni⟩ :=
                  ih 102 (Or.inr rfl) skip (cons + 1) (updBest 95 cons best) sk l h
                refine ⟨by omega, ?_⟩
                intro i hi
                rcases i with _ | j
                · simp only [List.getElem?_cons_zero]
                  intro hcc
                  simp only [Option.some.injEq] at hcc
                  exact h35 hcc
                · simp only [List.getElem?_cons_succ]
                  exact hni j (by omega)
              · rw [if_neg h0] at h
                have h2 := emitTok_len skip (updBest 95 cons best) (sk, 32, l) h
                rw [show updBest 95 cons best = some (32, cons) from rfl] at h2
                simp only [Option.some.injEq, Prod.mk.injEq] at h2
                exact ⟨by omega, fun i hi => absurd hi (by omega)⟩
    · rw [lexGo, lexDelta_at_102] at h
      by_cases hv : c ≠ 0 ∧ c ≠ 35 ∧ c ≠ 60 ∧ c ≠ 123
      · rw [if_pos hv] at h
        obtain ⟨hle, hni⟩ :=
          ih 102 (Or.inr rfl) skip (cons + 1) (updBest 102 cons best) sk l h
        refine ⟨by omega, ?_⟩
        intro i hi
        rcases i with _ | j
        · simp only [List.getElem?_cons_zero]
          intro hcc
          simp only [Option.some.injEq] at hcc
          exact hv.2.1 hcc
        · simp only [List.getElem?_cons_succ]
          exact hni j (by omega)
      · rw [if_neg hv] at h
        have h2 := emitTok_len skip (updBest 102 cons best) (sk, 32, l) h
        rw [show updBest 102 cons best = some (32, cons) from rfl] at h2
        simp only [Option.some.injEq, Prod.mk.injEq] at h2
        exact ⟨by omega, fun i hi => absurd hi (by omega)⟩

/-- C10 counterexample: in the template body a hash preceded only by
whitespace since the previous token is not emitted as its own
one-character text leaf; the tree of the example holds a two-character
text leaf of space and hash, with no error node. -/
theorem c10_hash_after_whitespace_counterexample :
    hasErr (parse exWsHash).root = false ∧
      leaves (parse exWsHash).root =
        [(11, [123, 123]), (21, [97]), (9, [125, 125]), (32, [32, 35]), (32, [98])] :=
  ⟨rfl, rfl⟩

/-- C10 amended: in template-body mode a text token contains the hash
character at most as its final position (a hash after intra-token
whitespace ends the token immediately after itself); a text token starting
with a hash is exactly one character long; and the input a hash b parses
to three adjacent one-character text leaves. -/
theorem c10_text_hash_behaviour :
    (∀ (xs : List Nat) (sk l : Nat), ts_lex 39 xs = some (sk, 32, l) →
      ∀ i, i + 1 < l → xs[i]? ≠ some 35) ∧
    (∀ rest, ts_lex 39 (35 :: rest) = some (0, 32, 1)) ∧
    leaves (parse exHash).root = [(32, [97]), (32, [35]), (32, [98])] := by
  refine ⟨?_, ?_, rfl⟩
  · intro xs sk l h i hi
    rcases xs with _ | ⟨c, cs⟩
    · have h2 : some ((0 : Nat), (0 : Nat), (0 : Nat)) = some (sk, 32, l) := h
      simp only [Option.some.injEq, Prod.mk.injEq] at h2
      omega
    · rw [ts_lex, lexGo, lexDelta_at_39] at h
      by_cases h35 : c = 35
      · rw [if_pos h35] at h
        have h2 : some ((0 : Nat), 32, 0 + 1) = some (sk, 32, l) :=
          (lexGo_92 cs 0 (0 + 1) (updBest 39 0 none)).symm.trans h
        simp only [Option.some.injEq, Prod.mk.injEq] at h2
        exact absurd hi (by omega)
      · rw [if_neg h35] at h
        by_cases h60 : c = 60
        · rw [if_pos h60] at h
          have hl := lexGo_99 cs 0 (0 + 1) (updBest 39 0 none) sk l h
          exact absurd hi (by omega)
        · rw [if_neg h60] at h
          by_cases h123 : c = 123
          · rw [if_pos h123] at h
            have hl := lexGo_101txt cs 0 (0 + 1) (updBest 39 0 none) sk l h
            exact absurd hi (by omega)
          · rw [if_neg h123] at h
            by_cases hws : (9 ≤ c ∧ c ≤ 13) ∨ c = 32
            · rw [if_pos hws] at h
              obtain ⟨hle, hni⟩ :=
                lexGo_text cs 95 (Or.inl rfl) 0 (0 + 1) (updBest 39 0 none) sk l h
              rcases i with _ | j
              · simp only [List.getElem?_cons_zero]
                intro hcc
                simp only [Option.some.injEq] at hcc
                rcases hws with ⟨hw1, hw2⟩ | hw1 <;> omega
              · simp only [List.getElem?_cons_succ]
                exact hni j (by omega)
            · rw [if_neg hws] at h
              by_cases h0 : c ≠ 0
              · rw [if_pos h0] at h
                obtain ⟨hle, hni⟩ :=
                  lexGo_text cs 102 (Or.inr rfl) 0 (0 + 1) (updBest 39 0 none) sk l h
                rcases i with _ | j
                · simp only [List.getElem?_cons_zero]
                  intro hcc
                  simp only [Option.some.injEq] at hcc
                  exact h35 hcc
                · simp only [List.getElem?_cons_succ]
                  exact hni j (by omega)
              · rw [if_neg h0] at h
                have h2 : (none : Option (Nat × Nat × Nat)) = some (sk, 32, l) := h
                exact Option.noConfusion h2
  · intro rest
    have h1 : ts_lex 39 (35 :: rest) = lexGo 92 rest 0 1 none := rfl
    rw [h1, lexGo_92]

theorem c10_text_hash_behaviour_witness :
    ts_lex 39 (35 :: [98]) = some (0, 32, 1) :=
  c10_text_hash_behaviour.2.1 [98]

/-- One shift step of the builder, with the token, its decomposition of
the remaining input and the resulting stack supplied as equations. -/
theorem parseLoop_step (fuel : Nat) (stk : List Frame) (c : Nat)
    (cs skipped chars rem2 : List Nat) (skip sym len : Nat) (stk2 : List Frame)
    (hlex : ts_lex (ts_lex_modes (topState stk)) (c :: cs) = some (skip, sym, len))
    (hsym : ¬ sym = 0) (hlen : ¬ len = 0)
    (hskip : (c :: cs).take skip = skipped)
    (hchars : ((c :: cs).drop skip).take len = chars)
    (hrem : (c :: cs).drop (skip + len) = rem2)
    (happ : applyActs 50 stk sym skipped chars = some stk2) :
    parseLoop (fuel + 1) stk (c :: cs) =
      ParseResult.mk (parseLoop fuel stk2 rem2).root (parseLoop fuel stk2 rem2).trailing
        ((parseLoop fuel stk2 rem2).steps + 1) := by
  rw [parseLoop, hlex]
  try dsimp only
  rw [if_neg hsym, if_neg hlen]
  try dsimp only
  rw [hskip, hchars, hrem, happ]

/-- The marker opener lexes as one thirteen-character token in the
start-of-document mode, whatever follows. -/
theorem ts_lex_37_marker (rest : List Nat) :
    ts_lex 37 (60 :: 60 :: 60 :: 100 :: 111 :: 116 :: 112 :: 114 :: 111 :: 109 :: 112 :: 116 :: 58 :: rest) =
      some (0, 29, 13) := by
  cases rest <;> rfl

/-- The triple greater-than closer lexes as one token in expression mode,
whatever follows. -/
theorem ts_lex_3_gt3 (rest : List Nat) :
    ts_lex 3 (62 :: 62 :: 62 :: rest) = some (0, 31, 3) := by
  cases rest <;> rfl

/-- Marker content scanning: from either content state the scanner
consumes every valid (non-NUL, non-greater-than) character and stops in
front of the closing greater-than. -/
theorem lexGo_content (ct : List Nat) : ∀ st, (st = 89 ∨ st = 90) →
    ∀ (rest2 : List Nat) (skip cons : Nat) (best : Option (Nat × Nat)),
    (∀ x ∈ ct, x ≠ 0 ∧ x ≠ 62) →
    lexGo st (ct ++ 62 :: rest2) skip cons best = some (skip, 30, cons + ct.length) := by
  induction ct with
  | nil =>
    intro st hst rest2 skip cons best hv
    rcases hst with rfl | rfl <;> rfl
  | cons x ct2 ih =>
    intro st hst rest2 skip cons best hv
    have hx := hv x (List.mem_cons_self x ct2)
    have hv2 : ∀ y ∈ ct2, y ≠ 0 ∧ y ≠ 62 := fun y hy => hv y (List.mem_cons_of_mem x hy)
    have harith : cons + (x :: ct2).length = (cons + 1) + ct2.length := by
      simp only [List.length_cons]
      omega
    rw [harith]
    rcases hst with rfl | rfl
    · simp only [List.cons_append]
      rw [lexGo, lexDelta_at_89]
      by_cases hw : (9 ≤ x ∧ x ≤ 13) ∨ x = 32
      · rw [if_pos hw]
        exact ih 89 (Or.inl rfl) rest2 skip (cons + 1) (updBest 89 cons best) hv2
      · rw [if_neg hw, if_pos hx]
        exact ih 90 (Or.inr rfl) rest2 skip (cons + 1) (updBest 89 cons best) hv2
    · simp only [List.cons_append]
      rw [lexGo, lexDelta_at_90]
      rw [if_pos hx]
      exact ih 90 (Or.inr rfl) rest2 skip (cons + 1) (updBest 90 cons best) hv2

/-- The marker content token in marker mode: a nonempty run of valid
characters up to the closing greater-than. -/
theorem ts_lex_30_content (x : Nat) (ct2 rest2 : List Nat)
    (hx : x ≠ 0 ∧ x ≠ 62) (hv2 : ∀ y ∈ ct2, y ≠ 0 ∧ y ≠ 62) :
    ts_lex 30 ((x :: ct2) ++ 62 :: rest2) = some (0, 30, ct2.length + 1) := by
  have hgoal : ts_lex 30 ((x :: ct2) ++ 62 :: rest2) =
      lexGo 30 (x :: (ct2 ++ 62 :: rest2)) 0 0 none := rfl
  rw [hgoal, lexGo, lexDelta_at_30]
  by_cases hw : (9 ≤ x ∧ x ≤ 13) ∨ x = 32
  · rw [if_pos hw]
    have h := lexGo_content ct2 89 (Or.inl rfl) rest2 0 (0 + 1) (updBest 30 0 none) hv2
    exact h.trans (by rw [show 0 + 1 + ct2.length = ct2.length + 1 from by omega])
  · rw [if_neg hw, if_pos hx]
    have h := lexGo_content ct2 90 (Or.inr rfl) rest2 0 (0 + 1) (updBest 30 0 none) hv2
    exact h.trans (by rw [show 0 + 1 + ct2.length = ct2.length + 1 from by omega])

/-- Full builder trace for a well-formed marker: opener token, one content
token, closer token, then the finishing reductions. -/
theorem c6_marker_trace (x : Nat) (ct2 : List Nat) (f : Nat)
    (hx : x ≠ 0 ∧ x ≠ 62) (hv2 : ∀ y ∈ ct2, y ≠ 0 ∧ y ≠ 62) :
    parseLoop (f + 1 + 1 + 1 + 1) []
      (60 :: 60 :: 60 :: 100 :: 111 :: 116 :: 112 :: 114 :: 111 :: 109 :: 112 :: 116 :: 58 ::
        ((x :: ct2) ++ 62 :: 62 :: 62 :: [])) =
      ParseResult.mk
        (Tree.node 33 [Tree.node 38 [Tree.node 51
          [Tree.leaf 29 [] [60, 60, 60, 100, 111, 116, 112, 114, 111, 109, 112, 116, 58],
           Tree.leaf 30 [] (x :: ct2), Tree.leaf 31 [] [62, 62, 62]]]]) [] 4 := by
  rw [parseLoop_step (f + 1 + 1 + 1) [] 60 _
      [] [60, 60, 60, 100, 111, 116, 112, 114, 111, 109, 112, 116, 58]
      ((x :: ct2) ++ 62 :: 62 :: 62 :: []) 0 29 13
      [Frame.mk 74 (Tree.leaf 29 [] [60, 60, 60, 100, 111, 116, 112, 114, 111, 109, 112, 116, 58])]
      (ts_lex_37_marker ((x :: ct2) ++ 62 :: 62 :: 62 :: [])) (by decide) (by decide)
      rfl rfl rfl rfl]
  simp only [List.cons_append]
  rw [parseLoop_step (f + 1 + 1)
      [Frame.mk 74 (Tree.leaf 29 [] [60, 60, 60, 100, 111, 116, 112, 114, 111, 109, 112, 116, 58])]
      x (ct2 ++ 62 :: 62 :: 62 :: [])
      [] (x :: ct2) (62 :: 62 :: 62 :: []) 0 30 (ct2.length + 1)
      (Frame.mk 64 (Tree.leaf 30 [] (x :: ct2)) ::
        [Frame.mk 74 (Tree.leaf 29 [] [60, 60, 60, 100, 111, 116, 112, 114, 111, 109, 112, 116, 58])])
      (by
        have hm : ts_lex_modes (topState [Frame.mk 74 (Tree.leaf 29 []
            [60, 60, 60, 100, 111, 116, 112, 114, 111, 109, 112, 116, 58])]) = 30 := rfl
        rw [hm]
        exact ts_lex_30_content x ct2 (62 :: 62 :: []) hx hv2)
      (by decide) (Nat.succ_ne_zero ct2.length)
      rfl
      (by
        show (x :: (ct2 ++ 62 :: 62 :: 62 :: [])).take (ct2.length + 1) = x :: ct2
        rw [List.take_succ_cons, List.take_left])
      (by
        show (x :: (ct2 ++ 62 :: 62 :: 62 :: [])).drop (0 + (ct2.length + 1)) = 62 :: 62 :: 62 :: []
        rw [show 0 + (ct2.length + 1) = ct2.length + 1 from by omega]
        rw [List.drop_succ_cons, List.drop_left])
      rfl]
  rw [parseLoop_step (f + 1)
      (Frame.mk 64 (Tree.leaf 30 [] (x :: ct2)) ::
        [Frame.mk 74 (Tree.leaf 29 [] [60, 60, 60, 100, 111, 116, 112, 114, 111, 109, 112, 116, 58])])
      62 (62 :: 62 :: []) [] [62, 62, 62] [] 0 31 3
      (Frame.mk 37 (Tree.leaf 31 [] [62, 62, 62]) ::
        Frame.mk 64 (Tree.leaf 30 [] (x :: ct2)) ::
        [Frame.mk 74 (Tree.leaf 29 [] [60, 60, 60, 100, 111, 116, 112, 114, 111, 109, 112, 116, 58])])
      rfl (by decide) (by decide) rfl rfl rfl rfl]
  rw [parseLoop]
  rfl

/-- C6 counterexample: a marker whose content holds a single greater-than
sign, though it nowhere holds the closing triple, does not parse to a
clean single marker node: the parse needs error recovery. -/
theorem c6_marker_gt_counterexample :
    hasErr (parse exMarkerGt).root = true ∧
      leaves (parse exMarkerGt).root ≠
        [(29, markerOpen), (30, [97, 62, 98]), (31, [62, 62, 62])] := by
  refine ⟨rfl, ?_⟩
  decide

/-- C6 amended: marker content is opaque only up to the first greater-than
sign: for every nonempty content free of greater-than signs and NUL bytes
the full input parses to a document holding a single marker node whose
content token is exactly that content, with no error node; the concrete
example with content space raw space stuff space is the second conjunct. -/
theorem c6_marker_opacity :
    (∀ ct, ct ≠ [] → (∀ x ∈ ct, x ≠ 0 ∧ x ≠ 62) →
      parse (markerOpen ++ ct ++ [62, 62, 62]) =
        ParseResult.mk (Tree.node 33 [Tree.node 38 [Tree.node 51
          [Tree.leaf 29 [] markerOpen, Tree.leaf 30 [] ct,
           Tree.leaf 31 [] [62, 62, 62]]]]) [] 4) ∧
    (parse exMarker).root = Tree.node 33 [Tree.node 38 [Tree.node 51
      [Tree.leaf 29 [] markerOpen,
       Tree.leaf 30 [] [32, 114, 97, 119, 32, 115, 116, 117, 102, 102, 32],
       Tree.leaf 31 [] [62, 62, 62]]]] := by
  constructor
  · intro ct hne hv
    obtain ⟨x, ct2, rfl⟩ := List.exists_cons_of_ne_nil hne
    have hx := hv x (List.mem_cons_self x ct2)
    have hv2 : ∀ y ∈ ct2, y ≠ 0 ∧ y ≠ 62 := fun y hy => hv y (List.mem_cons_of_mem x hy)
    have hfuel : (markerOpen ++ (x :: ct2) ++ [62, 62, 62]).length + 1 =
        ct2.length + 14 + 1 + 1 + 1 + 1 := by
      simp only [markerOpen, List.length_append, List.length_cons, List.length_nil]
      omega
    rw [parse, hfuel]
    exact c6_marker_trace x ct2 (ct2.length + 14) hx hv2
  · rfl

theorem c6_marker_opacity_witness :
    parse (markerOpen ++ [97] ++ [62, 62, 62]) =
      ParseResult.mk (Tree.node 33 [Tree.node 38 [Tree.node 51
        [Tree.leaf 29 [] markerOpen, Tree.leaf 30 [] [97],
         Tree.leaf 31 [] [62, 62, 62]]]]) [] 4 :=
  c6_marker_opacity.1 [97] (by decide) (by decide)

/-- Path scanning consumes exactly the path characters up to a
non-path-character delimiter. -/
theorem lexGo_77_exact (w2 : List Nat) : ∀ (d : Nat), ¬ isPathChar d →
    ∀ (rest : List Nat) (skip cons : Nat) (best : Option (Nat × Nat)),
    (∀ x ∈ w2, isPathChar x) →
    lexGo 77 (w2 ++ d :: rest) skip cons best = some (skip, 21, cons + w2.length) := by
  induction w2 with
  | nil =>
    intro d hd rest skip cons best hv
    rw [List.nil_append, lexGo, lexDelta_77, if_neg hd]
    rfl
  | cons z w2x ih =>
    intro d hd rest skip cons best hv
    simp only [List.cons_append]
    rw [lexGo, lexDelta_77, if_pos (hv z (List.mem_cons_self z w2x))]
    have h := ih d hd rest skip (cons + 1) (updBest 77 cons best)
      (fun x hx => hv x (List.mem_cons_of_mem z hx))
    exact h.trans (by
      rw [List.length_cons, show cons + (w2x.length + 1) = cons + 1 + w2x.length from by omega])

/-- A word of letters in close-marker mode lexes as one path token up to
the closing brace. -/
theorem ts_lex_29_word (y : Nat) (w2 rest : List Nat)
    (hy : 97 ≤ y ∧ y ≤ 122) (hw2 : ∀ x ∈ w2, isPathChar x) :
    ts_lex 29 ((y :: w2) ++ 125 :: rest) = some (0, 21, w2.length + 1) := by
  have hstep : ts_lex 29 ((y :: w2) ++ 125 :: rest) =
      lexGo 29 (y :: (w2 ++ 125 :: rest)) 0 0 none := rfl
  rw [hstep, lexGo, lexDelta_at_29]
  rw [if_neg (by omega : ¬ ((9 ≤ y ∧ y ≤ 13) ∨ y = 32))]
  rw [if_pos (Or.inr (Or.inr hy) :
    (65 ≤ y ∧ y ≤ 90) ∨ y = 95 ∨ (97 ≤ y ∧ y ≤ 122))]
  have h := lexGo_77_exact w2 125 (by decide) rest 0 (0 + 1) (updBest 29 0 none) hw2
  exact h.trans (by rw [show 0 + 1 + w2.length = w2.length + 1 from by omega])

/-- Full builder trace of an open block named if with argument x, text hi,
and a close marker carrying an arbitrary word of letters. -/
theorem c3_close_trace (y : Nat) (w2 : List Nat) (f : Nat)
    (hy : 97 ≤ y ∧ y ≤ 122) (hw2 : ∀ x ∈ w2, 97 ≤ x ∧ x ≤ 122) :
    parseLoop (f + 1 + 1 + 1 + 1 + 1 + 1 + 1 + 1 + 1) []
      (123 :: 123 :: 35 :: 105 :: 102 :: 32 :: 120 :: 125 :: 125 :: 104 :: 105 :: 123 :: 123 :: 47 :: ((y :: w2) ++ 125 :: 125 :: [])) =
      ParseResult.mk
        (Tree.node 33 [Tree.node 38 [Tree.node 40
          [Tree.node 41 [Tree.leaf 8 [] [123, 123, 35], Tree.leaf 21 [] [105, 102],
            Tree.node 46 [Tree.node 48 [Tree.leaf 21 [32] [120]]],
            Tree.leaf 9 [] [125, 125]],
           Tree.leaf 32 [] [104, 105],
           Tree.node 42 [Tree.leaf 10 [] [123, 123, 47], Tree.leaf 21 [] (y :: w2),
            Tree.leaf 9 [] [125, 125]]]]]) [] 9 := by
  have hwp : ∀ x ∈ w2, isPathChar x :=
    fun x hx => Or.inr (Or.inr (Or.inr (Or.inr (hw2 x hx))))
  rw [parseLoop_step (f + 1 + 1 + 1 + 1 + 1 + 1 + 1 + 1) [] 123 (123 :: 35 :: 105 :: 102 :: 32 :: 120 :: 125 :: 125 :: 104 :: 105 :: 123 :: 123 :: 47 :: ((y :: w2) ++ 125 :: 125 :: []))
      [] [123, 123, 35] (105 :: 102 :: 32 :: 120 :: 125 :: 125 :: 104 :: 105 :: 123 :: 123 :: 47 :: ((y :: w2) ++ 125 :: 125 :: []))
      0 8 3 [Frame.mk 82 (Tree.leaf 8 [] [123, 123, 35])]
      rfl (by decide) (by decide) rfl rfl rfl rfl]
  rw [parseLoop_step (f + 1 + 1 + 1 + 1 + 1 + 1 + 1) [Frame.mk 82 (Tree.leaf 8 [] [123, 123, 35])] 105 (102 :: 32 :: 120 :: 125 :: 125 :: 104 :: 105 :: 123 :: 123 :: 47 :: ((y :: w2) ++ 125 :: 125 :: []))
      [] [105, 102] (32 :: 120 :: 125 :: 125 :: 104 :: 105 :: 123 :: 123 :: 47 :: ((y :: w2) ++ 125 :: 125 :: []))
      0 21 2 [Frame.mk 12 (Tree.leaf 21 [] [105, 102]), Frame.mk 82 (Tree.leaf 8 [] [123, 123, 35])]
      rfl (by decide) (by decide) rfl rfl rfl rfl]
  rw [parseLoop_step (f + 1 + 1 + 1 + 1 + 1 + 1) [Frame.mk 12 (Tree.leaf 21 [] [105, 102]), Frame.mk 82 (Tree.leaf 8 [] [123, 123, 35])] 32 (120 :: 125 :: 125 :: 104 :: 105 :: 123 :: 123 :: 47 :: ((y :: w2) ++ 125 :: 125 :: []))
      [32] [120] (125 :: 125 :: 104 :: 105 :: 123 :: 123 :: 47 :: ((y :: w2) ++ 125 :: 125 :: []))
      1 21 1 [Frame.mk 20 (Tree.leaf 21 [32] [120]), Frame.mk 12 (Tree.leaf 21 [] [105, 102]), Frame.mk 82 (Tree.leaf 8 [] [123, 123, 35])]
      rfl (by decide) (by decide) rfl rfl rfl rfl]
  rw [parseLoop_step (f + 1 + 1 + 1 + 1 + 1) [Frame.mk 20 (Tree.leaf 21 [32] [120]), Frame.mk 12 (Tree.leaf 21 [] [105, 102]), Frame.mk 82 (Tree.leaf 8 [] [123, 123, 35])] 125 (125 :: 104 :: 105 :: 123 :: 123 :: 47 :: ((y :: w2) ++ 125 :: 125 :: []))
      [] [125, 125] (104 :: 105 :: 123 :: 123 :: 47 :: ((y :: w2) ++ 125 :: 125 :: []))
      0 9 2 [Frame.mk 32 (Tree.leaf 9 [] [125, 125]), Frame.mk 16 (Tree.node 46 [Tree.node 48 [Tree.leaf 21 [32] [120]]]), Frame.mk 12 (Tree.leaf 21 [] [105, 102]), Frame.mk 82 (Tree.leaf 8 [] [123, 123, 35])]
      rfl (by decide) (by decide) rfl rfl rfl rfl]
  rw [parseLoop_step (f + 1 + 1 + 1 + 1) [Frame.mk 32 (Tree.leaf 9 [] [125, 125]), Frame.mk 16 (Tree.node 46 [Tree.node 48 [Tree.leaf 21 [32] [120]]]), Frame.mk 12 (Tree.leaf 21 [] [105, 102]), Frame.mk 82 (Tree.leaf 8 [] [123, 123, 35])] 104 (105 :: 123 :: 123 :: 47 :: ((y :: w2) ++ 125 :: 125 :: []))
      [] [104, 105] (123 :: 123 :: 47 :: ((y :: w2) ++ 125 :: 125 :: []))
      0 32 2 [Frame.mk 6 (Tree.leaf 32 [] [104, 105]), Frame.mk 8 (Tree.node 41 [Tree.leaf 8 [] [123, 123, 35], Tree.leaf 21 [] [105, 102], Tree.node 46 [Tree.node 48 [Tree.leaf 21 [32] [120]]], Tree.leaf 9 [] [125, 125]])]
      rfl (by decide) (by decide) rfl rfl rfl rfl]
  rw [parseLoop_step (f + 1 + 1 + 1) [Frame.mk 6 (Tree.leaf 32 [] [104, 105]), Frame.mk 8 (Tree.node 41 [Tree.leaf 8 [] [123, 123, 35], Tree.leaf 21 [] [105, 102], Tree.node 46 [Tree.node 48 [Tree.leaf 21 [32] [120]]], Tree.leaf 9 [] [125, 125]])] 123 (123 :: 47 :: ((y :: w2) ++ 125 :: 125 :: []))
      [] [123, 123, 47] ((y :: w2) ++ 125 :: 125 :: [])
      0 10 3 [Frame.mk 61 (Tree.leaf 10 [] [123, 123, 47]), Frame.mk 6 (Tree.leaf 32 [] [104, 105]), Frame.mk 8 (Tree.node 41 [Tree.leaf 8 [] [123, 123, 35], Tree.leaf 21 [] [105, 102], Tree.node 46 [Tree.node 48 [Tree.leaf 21 [32] [120]]], Tree.leaf 9 [] [125, 125]])]
      (by
        have hm : ts_lex_modes (topState [Frame.mk 6 (Tree.leaf 32 [] [104, 105]), Frame.mk 8 (Tree.node 41 [Tree.leaf 8 [] [123, 123, 35], Tree.leaf 21 [] [105, 102], Tree.node 46 [Tree.node 48 [Tree.leaf 21 [32] [120]]], Tree.leaf 9 [] [125, 125]])]) = 5 := rfl
        rw [hm]
        rfl)
      (by decide) (by decide) rfl rfl rfl rfl]
  simp only [List.cons_append]
  rw [parseLoop_step (f + 1 + 1) [Frame.mk 61 (Tree.leaf 10 [] [123, 123, 47]), Frame.mk 6 (Tree.leaf 32 [] [104, 105]), Frame.mk 8 (Tree.node 41 [Tree.leaf 8 [] [123, 123, 35], Tree.leaf 21 [] [105, 102], Tree.node 46 [Tree.node 48 [Tree.leaf 21 [32] [120]]], Tree.leaf 9 [] [125, 125]])]
      y (w2 ++ 125 :: 125 :: [])
      [] (y :: w2) (125 :: 125 :: [])
      0 21 (w2.length + 1)
      [Frame.mk 52 (Tree.leaf 21 [] (y :: w2)), Frame.mk 61 (Tree.leaf 10 [] [123, 123, 47]), Frame.mk 6 (Tree.leaf 32 [] [104, 105]), Frame.mk 8 (Tree.node 41 [Tree.leaf 8 [] [123, 123, 35], Tree.leaf 21 [] [105, 102], Tree.node 46 [Tree.node 48 [Tree.leaf 21 [32] [120]]], Tree.leaf 9 [] [125, 125]])]
      (by
        have hm : ts_lex_modes (topState [Frame.mk 61 (Tree.leaf 10 [] [123, 123, 47]), Frame.mk 6 (Tree.leaf 32 [] [104, 105]), Frame.mk 8 (Tree.node 41 [Tree.leaf 8 [] [123, 123, 35], Tree.leaf 21 [] [105, 102], Tree.node 46 [Tree.node 48 [Tree.leaf 21 [32] [120]]], Tree.leaf 9 [] [125, 125]])]) = 29 := rfl
        rw [hm]
        exact ts_lex_29_word y w2 (125 :: []) hy hwp)
      (by decide) (Nat.succ_ne_zero w2.length)
      rfl
      (by
        show (y :: (w2 ++ 125 :: 125 :: [])).take (w2.length + 1) = y :: w2
        rw [List.take_succ_cons, List.take_left])
      (by
        show (y :: (w2 ++ 125 :: 125 :: [])).drop (0 + (w2.length + 1)) = 125 :: 125 :: []
        rw [show 0 + (w2.length + 1) = w2.length + 1 from by omega]
        rw [List.drop_succ_cons, List.drop_left])
      rfl]
  rw [parseLoop_step (f + 1) [Frame.mk 52 (Tree.leaf 21 [] (y :: w2)), Frame.mk 61 (Tree.leaf 10 [] [123, 123, 47]), Frame.mk 6 (Tree.leaf 32 [] [104, 105]), Frame.mk 8 (Tree.node 41 [Tree.leaf 8 [] [123, 123, 35], Tree.leaf 21 [] [105, 102], Tree.node 46 [Tree.node 48 [Tree.leaf 21 [32] [120]]], Tree.leaf 9 [] [125, 125]])]
      125 (125 :: []) [] [125, 125] [] 0 9 2
      [Frame.mk 27 (Tree.leaf 9 [] [125, 125]), Frame.mk 52 (Tree.leaf 21 [] (y :: w2)), Frame.mk 61 (Tree.leaf 10 [] [123, 123, 47]), Frame.mk 6 (Tree.leaf 32 [] [104, 105]), Frame.mk 8 (Tree.node 41 [Tree.leaf 8 [] [123, 123, 35], Tree.leaf 21 [] [105, 102], Tree.node 46 [Tree.node 48 [Tree.leaf 21 [32] [120]]], Tree.leaf 9 [] [125, 125]])]
      rfl (by decide) (by decide) rfl rfl rfl rfl]
  rw [parseLoop]
  rfl

/-- Counterexample to close-block name matching: the block opened as if
and closed as foo parses with no error node at all (silent acceptance),
the close-name leaf is the word foo while the open-name leaf is the word
if; and the close marker with an empty name, far from closing the block,
produces a tree containing error nodes. -/
theorem c3_close_name_counterexample :
    hasErr (parse exMismatch).root = false ∧
    (parse exMismatch).trailing = [] ∧
    leaves (parse exMismatch).root =
      [(8, [123, 123, 35]), (21, [105, 102]), (21, [120]), (9, [125, 125]),
       (32, [104, 105]), (10, [123, 123, 47]), (21, [102, 111, 111]), (9, [125, 125])] ∧
    hasErr (parse exEmptyClose).root = true := by
  refine ⟨rfl, rfl, rfl, rfl⟩

/-- C3: corrected. The generated tables never compare the close-block name
with the open-block name: for every word of lowercase letters used as the
close name of a block opened as if, the input parses without any error
node into a well-formed handlebars_block whose close_block child carries
that word verbatim as its name leaf. The grammar also has no empty-name
close marker. -/
theorem c3_close_name_not_checked (y : Nat) (w2 : List Nat)
    (hy : 97 ≤ y ∧ y ≤ 122) (hw2 : ∀ x ∈ w2, 97 ≤ x ∧ x ≤ 122) :
    parse (123 :: 123 :: 35 :: 105 :: 102 :: 32 :: 120 :: 125 :: 125 :: 104 :: 105 ::
      123 :: 123 :: 47 :: ((y :: w2) ++ 125 :: 125 :: [])) =
      ParseResult.mk
        (Tree.node 33 [Tree.node 38 [Tree.node 40
          [Tree.node 41 [Tree.leaf 8 [] [123, 123, 35], Tree.leaf 21 [] [105, 102],
            Tree.node 46 [Tree.node 48 [Tree.leaf 21 [32] [120]]],
            Tree.leaf 9 [] [125, 125]],
           Tree.leaf 32 [] [104, 105],
           Tree.node 42 [Tree.leaf 10 [] [123, 123, 47], Tree.leaf 21 [] (y :: w2),
            Tree.leaf 9 [] [125, 125]]]]]) [] 9 := by
  show parseLoop _ [] _ = _
  rw [show (123 :: 123 :: 35 :: 105 :: 102 :: 32 :: 120 :: 125 :: 125 :: 104 :: 105 ::
      123 :: 123 :: 47 :: ((y :: w2) ++ 125 :: 125 :: [])).length + 1 =
      w2.length + 9 + 1 + 1 + 1 + 1 + 1 + 1 + 1 + 1 + 1 from by
    simp only [List.length_cons, List.length_append, List.length_nil]
    try omega]
  exact c3_close_trace y w2 (w2.length + 9) hy hw2

/-- Concrete instance of the corrected close-name theorem at the word foo. -/
theorem c3_close_name_not_checked_witness :
    (97 ≤ 102 ∧ 102 ≤ 122) ∧ (∀ x ∈ [111, 111], 97 ≤ x ∧ x ≤ 122) ∧
    parse (123 :: 123 :: 35 :: 105 :: 102 :: 32 :: 120 :: 125 :: 125 :: 104 :: 105 ::
      123 :: 123 :: 47 :: ((102 :: [111, 111]) ++ 125 :: 125 :: [])) =
      ParseResult.mk
        (Tree.node 33 [Tree.node 38 [Tree.node 40
          [Tree.node 41 [Tree.leaf 8 [] [123, 123, 35], Tree.leaf 21 [] [105, 102],
            Tree.node 46 [Tree.node 48 [Tree.leaf 21 [32] [120]]],
            Tree.leaf 9 [] [125, 125]],
           Tree.leaf 32 [] [104, 105],
           Tree.node 42 [Tree.leaf 10 [] [123, 123, 47], Tree.leaf 21 [] (102 :: [111, 111]),
            Tree.leaf 9 [] [125, 125]]]]]) [] 9 :=
  ⟨by decide, by decide,
   c3_close_name_not_checked 102 [111, 111] (by decide) (by decide)⟩

end DP
